import Mathlib

/-!
# Firebase ESP8266 client facade: token override, initialisation, gating

A shallow embedding of the parts of `Firebase.cpp` (v1.0.16) that write the
`FirebaseConfig` object: `mSetIdToken`, `setFloatDigits`, `setDoubleDigits`,
`init` and `begin`, in both facade variants of the file (`Firebase_ESP_Client`, lines
37-279, and `FIREBASE_CLASS`, lines 283-606), of the cloud messaging requests
of `FIREBASE_CLASS` (lines 479-555) and of the numeric getter
`FirebaseData::to<T>()` of `FB_Session.h` (lines 572-623). The readiness gate
and the token state machine, which live in the signer sources, are modelled
from the spec.

Conventions of the embedding.

* A pointer argument is an `Option`: `none` is the null pointer, `some c` the
  object it designates. A method that writes through the pointer returns the
  object as it is after the call.
* `MB_String` values are Lean strings. `length()` is the byte count of the
  text (`String.utf8ByteSize`) and `strcmp(a.c_str(), b.c_str()) == 0` is
  equality of the two texts.
* `time(nullptr)` is an argument `now`, the clock reading in epoch seconds, a
  natural number. The sum `time(nullptr) + expire` is formed in a type at
  least as wide as the field and then added to it, so only the reduction of
  the stored value matters.
* The declaration of `tokens.expires` is in a header that is not part of the
  sources at hand, so the bit width `w` of that unsigned field is an argument:
  a value stored in it is reduced modulo `2 ^ w`. The file is compiled for
  ESP8266 and ESP32 only (line 31), where `unsigned long` and `size_t` have
  32 bits, so the concrete evaluations below take `w = 32`.
-/

/-- Modelled from the spec: the enumeration `fb_esp_auth_token_type` is declared
in a header that is not among the sources. The spec lists the token types
none, legacy secret, ID token, custom token and OAuth2 access token;
`token_type_legacy_token` and `token_type_id_token` are the names used in
`Firebase.cpp` (lines 322, 415). -/
inductive fb_esp_auth_token_type where
  | token_type_undefined
  | token_type_legacy_token
  | token_type_id_token
  | token_type_custom_token
  | token_type_oauth2_access_token
deriving DecidableEq, Repr

/-- Modelled from the spec: the enumeration `fb_esp_auth_token_status` is
declared in a header that is not among the sources. Only `token_status_ready`
is named in `Firebase.cpp` (line 411); the other values stand for the states
of the spec in which no usable credential is held (not yet initialised, an
exchange under way, an exchange failed). -/
inductive fb_esp_auth_token_status where
  | token_status_uninitialized
  | token_status_on_request
  | token_status_ready
  | token_status_error
deriving DecidableEq, Repr

/-- Modelled from the spec: the enumeration `fb_esp_jwt_generation_step` is
declared in a header that is not among the sources. Only
`fb_esp_jwt_generation_step_begin` is named in `Firebase.cpp` (line 413); the
other values stand for the later steps of the service-account exchange of the
spec (encode the claims, sign, exchange). -/
inductive fb_esp_jwt_generation_step where
  | fb_esp_jwt_generation_step_begin
  | fb_esp_jwt_generation_step_encode_header_payload
  | fb_esp_jwt_generation_step_sign
  | fb_esp_jwt_generation_step_exchange
deriving DecidableEq, Repr

/-- The member `config->signer.tokens.error`, of which `Firebase.cpp` uses the
message text (line 454). -/
structure fb_esp_auth_token_error_t where
  message : String
deriving DecidableEq, Repr

/-- The member `config->signer.tokens`: the fields `Firebase.cpp` reads or
writes. `expires` is an unsigned machine integer held as a natural number. -/
structure fb_esp_auth_token_info_t where
  expires : Nat
  status : fb_esp_auth_token_status
  token_type : fb_esp_auth_token_type
  error : fb_esp_auth_token_error_t
deriving DecidableEq, Repr

/-- The member `config->signer`: the fields `Firebase.cpp` reads or writes. -/
structure fb_esp_token_signer_resources_t where
  tokens : fb_esp_auth_token_info_t
  attempts : Nat
  step : fb_esp_jwt_generation_step
  anonymous : Bool
  idTokenCutomSet : Bool
  signup : Bool
  test_mode : Bool
  lastReqMillis : Nat
deriving DecidableEq, Repr

/-- The member `config->_int`: the fields `Firebase.cpp` reads or writes. -/
structure fb_esp_cfg_int_t where
  auth_token : String
  atok_len : Nat
  ltok_len : Nat
  fb_last_jwt_generation_error_cb_millis : Nat
  fb_float_digits : Nat
  fb_double_digits : Nat
  fb_auth_uri : Bool
  fb_reconnect_wifi : Bool
deriving DecidableEq, Repr

/-- The member `config->cert`, of which `Firebase.cpp` reads the file name
(line 333). -/
structure fb_esp_cfg_cert_t where
  file : String
deriving DecidableEq, Repr

/-- The configuration object `FirebaseConfig` that the application owns and
hands to the facade: the fields `Firebase.cpp` reads or writes. -/
structure FirebaseConfig where
  _int : fb_esp_cfg_int_t
  signer : fb_esp_token_signer_resources_t
  host : String
  database_url : String
  cert : fb_esp_cfg_cert_t
deriving DecidableEq, Repr

/-- The method `MB_String::length()`: the number of bytes of the text. -/
def MB_String.length (s : String) : Nat := s.utf8ByteSize

/-- A configuration that holds no credential: every text empty, every counter
zero, every flag false. It is the starting state of the concrete evaluations. -/
def blankConfig : FirebaseConfig :=
  { _int :=
      { auth_token := "", atok_len := 0, ltok_len := 0,
        fb_last_jwt_generation_error_cb_millis := 0,
        fb_float_digits := 5, fb_double_digits := 9,
        fb_auth_uri := false, fb_reconnect_wifi := false },
    signer :=
      { tokens :=
          { expires := 0,
            status := fb_esp_auth_token_status.token_status_uninitialized,
            token_type := fb_esp_auth_token_type.token_type_undefined,
            error := { message := "" } },
        attempts := 0,
        step := fb_esp_jwt_generation_step.fb_esp_jwt_generation_step_begin,
        anonymous := false, idTokenCutomSet := false, signup := false,
        test_mode := false, lastReqMillis := 0 },
    host := "", database_url := "", cert := { file := "" } }

/-- The configuration that the override of `blankConfig` by the token `tokenA`,
requested for 3600 seconds at clock reading 1700000000, leaves behind (see
`mSetIdToken_blank_tokenA`). -/
def tokenAConfig : FirebaseConfig :=
  { _int :=
      { auth_token := "tokenA", atok_len := 6, ltok_len := 0,
        fb_last_jwt_generation_error_cb_millis := 0,
        fb_float_digits := 5, fb_double_digits := 9,
        fb_auth_uri := false, fb_reconnect_wifi := false },
    signer :=
      { tokens :=
          { expires := 1700003600,
            status := fb_esp_auth_token_status.token_status_ready,
            token_type := fb_esp_auth_token_type.token_type_id_token,
            error := { message := "" } },
        attempts := 0,
        step := fb_esp_jwt_generation_step.fb_esp_jwt_generation_step_begin,
        anonymous := true, idTokenCutomSet := true, signup := false,
        test_mode := false, lastReqMillis := 0 },
    host := "", database_url := "", cert := { file := "" } }

namespace FIREBASE_CLASS

/-- The method `FIREBASE_CLASS::mSetIdToken` (lines 388-419), run at clock
reading `now` with an `expires` field of `w` bits.

```
if (!config) return;
MB_String _idToken = idToken;
if (_idToken.length() > 0) {
    if (_idToken.length() == 0 || strcmp(auth_token, _idToken) == 0) return;
    _idToken.clear();
    config->_int.auth_token = idToken;
    config->_int.atok_len = config->_int.auth_token.length();
    config->_int.ltok_len = 0;
    if (expire > 3600) expire = 3600;
    config->signer.tokens.expires += time(nullptr) + expire;
    config->signer.tokens.status = token_status_ready;
    config->signer.attempts = 0;
    config->signer.step = fb_esp_jwt_generation_step_begin;
    config->_int.fb_last_jwt_generation_error_cb_millis = 0;
    config->signer.tokens.token_type = token_type_id_token;
    config->signer.anonymous = true;
    config->signer.idTokenCutomSet = true;
}
``` -/
def mSetIdToken (w now : Nat) (config : Option FirebaseConfig) (idToken : String)
    (expire : Nat) : Option FirebaseConfig :=
  match config with
  | none => none
  | some config =>
    if MB_String.length idToken > 0 then
      if MB_String.length idToken == 0 || config._int.auth_token == idToken then
        some config
      else
        let expire := if expire > 3600 then 3600 else expire
        some
          { config with
            _int :=
              { config._int with
                auth_token := idToken
                atok_len := MB_String.length idToken
                ltok_len := 0
                fb_last_jwt_generation_error_cb_millis := 0 }
            signer :=
              { config.signer with
                tokens :=
                  { config.signer.tokens with
                    expires := (config.signer.tokens.expires + (now + expire)) % 2 ^ w
                    status := fb_esp_auth_token_status.token_status_ready
                    token_type := fb_esp_auth_token_type.token_type_id_token }
                attempts := 0
                step := fb_esp_jwt_generation_step.fb_esp_jwt_generation_step_begin
                anonymous := true
                idTokenCutomSet := true } }
    else
      some config

/-- The method `FIREBASE_CLASS::setFloatDigits` (lines 467-471):
`if (digits < 7) cfg->_int.fb_float_digits = digits;`. The facade member `cfg`
is dereferenced without a null test, so the method is modelled on a facade
whose `cfg` designates a configuration. `digits` is a `uint8_t`. -/
def setFloatDigits (cfg : FirebaseConfig) (digits : Nat) : FirebaseConfig :=
  if digits < 7 then
    { cfg with _int := { cfg._int with fb_float_digits := digits } }
  else
    cfg

/-- The method `FIREBASE_CLASS::setDoubleDigits` (lines 473-477):
`if (digits < 9) cfg->_int.fb_double_digits = digits;`, on a facade whose
`cfg` designates a configuration. -/
def setDoubleDigits (cfg : FirebaseConfig) (digits : Nat) : FirebaseConfig :=
  if digits < 9 then
    { cfg with _int := { cfg._int with fb_double_digits := digits } }
  else
    cfg

end FIREBASE_CLASS

namespace Firebase_ESP_Client

/-- The method `Firebase_ESP_Client::mSetIdToken` (lines 129-160), run at clock
reading `now` with an `expires` field of `w` bits. Its statements are those of
the `FIREBASE_CLASS` variant, in the same order. -/
def mSetIdToken (w now : Nat) (config : Option FirebaseConfig) (idToken : String)
    (expire : Nat) : Option FirebaseConfig :=
  match config with
  | none => none
  | some config =>
    if MB_String.length idToken > 0 then
      if MB_String.length idToken == 0 || config._int.auth_token == idToken then
        some config
      else
        let expire := if expire > 3600 then 3600 else expire
        some
          { config with
            _int :=
              { config._int with
                auth_token := idToken
                atok_len := MB_String.length idToken
                ltok_len := 0
                fb_last_jwt_generation_error_cb_millis := 0 }
            signer :=
              { config.signer with
                tokens :=
                  { config.signer.tokens with
                    expires := (config.signer.tokens.expires + (now + expire)) % 2 ^ w
                    status := fb_esp_auth_token_status.token_status_ready
                    token_type := fb_esp_auth_token_type.token_type_id_token }
                attempts := 0
                step := fb_esp_jwt_generation_step.fb_esp_jwt_generation_step_begin
                anonymous := true
                idTokenCutomSet := true } }
    else
      some config

/-- The method `Firebase_ESP_Client::setFloatDigits` (lines 221-225):
`if (digits < 7 && cfg) cfg->_int.fb_float_digits = digits;`. The argument
`cfg` is the facade member, `none` when it is null. -/
def setFloatDigits (cfg : Option FirebaseConfig) (digits : Nat) : Option FirebaseConfig :=
  match cfg with
  | some c =>
    if digits < 7 then
      some { c with _int := { c._int with fb_float_digits := digits } }
    else
      some c
  | none => none

/-- The method `Firebase_ESP_Client::setDoubleDigits` (lines 227-231):
`if (digits < 9 && cfg) cfg->_int.fb_double_digits = digits;`. -/
def setDoubleDigits (cfg : Option FirebaseConfig) (digits : Nat) : Option FirebaseConfig :=
  match cfg with
  | some c =>
    if digits < 9 then
      some { c with _int := { c._int with fb_double_digits := digits } }
    else
      some c
  | none => none

end Firebase_ESP_Client

/-! ## The facade object and `init`

The facade keeps pointers to the configuration and authentication objects of
the application. Pointer identity matters for `init`, so the objects live in a
memory indexed by address and the facade holds addresses. -/

/-- The address of an object in memory. -/
abbrev Ptr := Nat

/-- The data members `cfg` and `auth` of the facade object (`FIREBASE_CLASS` or
`Firebase_ESP_Client`); `none` is the null pointer. -/
structure Facade where
  cfg : Option Ptr
  auth : Option Ptr
deriving DecidableEq, Repr

/-- The `FirebaseConfig` objects in memory: the object stored at each address. -/
abbrev Memory := Ptr → FirebaseConfig

/-- An assignment through a pointer: the object at address `p` becomes `c`. -/
def Memory.write (m : Memory) (p : Ptr) (c : FirebaseConfig) : Memory :=
  fun a => if a = p then c else m a

/-- What the surroundings deliver to `init`: the value of
`WiFi.getAutoReconnect()`, and the address and initial value of the object
that `new FirebaseConfig()` creates and the address that `new FirebaseAuth()`
returns (the default member values are declared in a header that is not among
the sources). -/
structure InitEnv where
  autoReconnect : Bool
  newConfig : Ptr
  defaultConfig : FirebaseConfig
  newAuth : Ptr

/-- The configuration object the facade works on: the object its `cfg` member
designates, if any. -/
def activeConfig (r : Facade × Memory) : Option FirebaseConfig :=
  r.1.cfg.map r.2

/-- A configuration left by a sign-up: the ID token `tokenS` is held with expiry
1700003600, the flag `signup` is set and `anonymous` is not; the last error
text is still recorded. -/
def signupConfig : FirebaseConfig :=
  { _int :=
      { auth_token := "tokenS", atok_len := 6, ltok_len := 0,
        fb_last_jwt_generation_error_cb_millis := 0,
        fb_float_digits := 5, fb_double_digits := 9,
        fb_auth_uri := false, fb_reconnect_wifi := false },
    signer :=
      { tokens :=
          { expires := 1700003600,
            status := fb_esp_auth_token_status.token_status_ready,
            token_type := fb_esp_auth_token_type.token_type_id_token,
            error := { message := "EMAIL_EXISTS" } },
        attempts := 0,
        step := fb_esp_jwt_generation_step.fb_esp_jwt_generation_step_begin,
        anonymous := false, idTokenCutomSet := false, signup := true,
        test_mode := false, lastReqMillis := 1234 },
    host := "", database_url := "", cert := { file := "" } }

/-- A configuration that holds a legacy database secret: token type
`token_type_legacy_token`, no expiry. -/
def legacyConfig : FirebaseConfig :=
  { blankConfig with
    _int := { blankConfig._int with auth_token := "secret", atok_len := 6 }
    signer :=
      { blankConfig.signer with
        tokens :=
          { blankConfig.signer.tokens with
            status := fb_esp_auth_token_status.token_status_ready
            token_type := fb_esp_auth_token_type.token_type_legacy_token } } }

/-- A memory for the concrete evaluations: `signupConfig` at address 1,
`legacyConfig` at address 3, the blank configuration elsewhere. -/
def exampleMemory : Memory :=
  fun a => if a = 1 then signupConfig else if a = 3 then legacyConfig else blankConfig

/-- Surroundings for the concrete evaluations. -/
def exampleEnv : InitEnv :=
  { autoReconnect := true, newConfig := 100, defaultConfig := blankConfig, newAuth := 101 }

namespace FIREBASE_CLASS

/-- The method `FIREBASE_CLASS::init` (lines 426-455).

```
if (!this->auth) this->auth = auth;
if (!this->cfg) this->cfg = config;
if (!this->cfg) this->cfg = new FirebaseConfig();
if (!this->auth) this->auth = new FirebaseAuth();
ut->setConfig(cfg);
RTDB.begin(ut);
cfg->_int.fb_reconnect_wifi = WiFi.getAutoReconnect();
cfg->signer.lastReqMillis = 0;
if (!cfg->signer.anonymous && !cfg->signer.signup)
    cfg->signer.tokens.expires = 0;
cfg->signer.signup = false;
Signer.begin(ut, mbfs, this->cfg, this->auth);
cfg->signer.tokens.error.message.clear();
```

The calls `ut->setConfig`, `RTDB.begin` and `Signer.begin` hand pointers on to
other objects (the constructor calls `Signer.begin` with null pointers, line
291); they do not write the configuration object. -/
def init (env : InitEnv) (f : Facade) (m : Memory) (config auth : Option Ptr) :
    Facade × Memory :=
  let auth1 := if f.auth.isNone then auth else f.auth
  let cfg1 := if f.cfg.isNone then config else f.cfg
  let (cfg2, m1) :=
    match cfg1 with
    | some p => (p, m)
    | none => (env.newConfig, m.write env.newConfig env.defaultConfig)
  let auth2 :=
    match auth1 with
    | some a => a
    | none => env.newAuth
  let c := m1 cfg2
  let c1 := { c with _int := { c._int with fb_reconnect_wifi := env.autoReconnect } }
  let c2 := { c1 with signer := { c1.signer with lastReqMillis := 0 } }
  let c3 :=
    if !c2.signer.anonymous && !c2.signer.signup then
      { c2 with signer := { c2.signer with tokens := { c2.signer.tokens with expires := 0 } } }
    else c2
  let c4 := { c3 with signer := { c3.signer with signup := false } }
  let c5 :=
    { c4 with
      signer :=
        { c4.signer with
          tokens := { c4.signer.tokens with error := { message := "" } } } }
  ({ cfg := some cfg2, auth := some auth2 }, m1.write cfg2 c5)

end FIREBASE_CLASS

namespace Firebase_ESP_Client

/-- The method `Firebase_ESP_Client::init` (lines 167-209).

```
this->auth = auth;
cfg = config;
if (!cfg) cfg = new FirebaseConfig();
if (!this->auth) this->auth = new FirebaseAuth();
ut->setConfig(cfg);
RTDB.begin(ut); FCM.begin(ut); Storage.begin(ut); Firestore.begin(ut);
Functions.begin(ut); GCStorage.begin(ut);
cfg->_int.fb_reconnect_wifi = WiFi.getAutoReconnect();
cfg->signer.lastReqMillis = 0;
if (!cfg->signer.anonymous && !cfg->signer.signup)
    cfg->signer.tokens.expires = 0;
cfg->signer.signup = false;
Signer.begin(ut, mbfs, cfg, auth);
cfg->signer.tokens.error.message.clear();
```

The pointers are assigned without a test, unlike in `FIREBASE_CLASS::init`.
The `begin` calls of the service modules hand the pointer `ut` on and do not
write the configuration object. -/
def init (env : InitEnv) (_f : Facade) (m : Memory) (config auth : Option Ptr) :
    Facade × Memory :=
  let auth1 := auth
  let cfg1 := config
  let (cfg2, m1) :=
    match cfg1 with
    | some p => (p, m)
    | none => (env.newConfig, m.write env.newConfig env.defaultConfig)
  let auth2 :=
    match auth1 with
    | some a => a
    | none => env.newAuth
  let c := m1 cfg2
  let c1 := { c with _int := { c._int with fb_reconnect_wifi := env.autoReconnect } }
  let c2 := { c1 with signer := { c1.signer with lastReqMillis := 0 } }
  let c3 :=
    if !c2.signer.anonymous && !c2.signer.signup then
      { c2 with signer := { c2.signer with tokens := { c2.signer.tokens with expires := 0 } } }
    else c2
  let c4 := { c3 with signer := { c3.signer with signup := false } }
  let c5 :=
    { c4 with
      signer :=
        { c4.signer with
          tokens := { c4.signer.tokens with error := { message := "" } } } }
  ({ cfg := some cfg2, auth := some auth2 }, m1.write cfg2 c5)

end Firebase_ESP_Client

/-- The writes of `init` on the configuration object it works on (lines
199-208 and 445-454), gathered in one record update; `init_some` and `init_some_client` below show
that both variants of `init` store exactly this object. -/
def initWrites (autoReconnect : Bool) (c : FirebaseConfig) : FirebaseConfig :=
  { c with
    _int := { c._int with fb_reconnect_wifi := autoReconnect }
    signer :=
      { c.signer with
        lastReqMillis := 0
        signup := false
        tokens :=
          { c.signer.tokens with
            expires :=
              if !c.signer.anonymous && !c.signer.signup then 0 else c.signer.tokens.expires
            error := { message := "" } } } }

/-- Running `FIREBASE_CLASS::init` twice in succession with the same
arguments. -/
def FIREBASE_CLASS.initTwice (env : InitEnv) (f : Facade) (m : Memory)
    (config auth : Option Ptr) : Facade × Memory :=
  FIREBASE_CLASS.init env (FIREBASE_CLASS.init env f m config auth).1
    (FIREBASE_CLASS.init env f m config auth).2 config auth

/-- Running `Firebase_ESP_Client::init` twice in succession with the same
arguments. -/
def Firebase_ESP_Client.initTwice (env : InitEnv) (f : Facade) (m : Memory)
    (config auth : Option Ptr) : Facade × Memory :=
  Firebase_ESP_Client.init env (Firebase_ESP_Client.init env f m config auth).1
    (Firebase_ESP_Client.init env f m config auth).2 config auth

/-! ## The readiness gate and the token state machine

`Signer.tokenReady` and `Signer.handleToken` are defined in the signer sources,
which `FB_Session.h` includes (line 45) but which are not among the sources at
hand; the facade only calls them. They are modelled from the spec. -/

/-- Modelled from the spec: the method `Signer.tokenReady()`, defined in the
signer sources that are not among the sources at hand. The spec (section 4.3):
"`tokenReady()` returns true iff state is `Ready` and `now < expires_at`". The
state `Ready` is the token status `token_status_ready`, and `expires_at` is
`signer.tokens.expires`, of the configuration the signer works on; `now` is the
clock reading. -/
def Signer.tokenReady (now : Nat) (config : FirebaseConfig) : Bool :=
  config.signer.tokens.status == fb_esp_auth_token_status.token_status_ready
    && decide (now < config.signer.tokens.expires)

/-- The method `FIREBASE_CLASS::ready` (lines 353-356):
`return Signer.tokenReady();`. -/
def FIREBASE_CLASS.ready (now : Nat) (config : FirebaseConfig) : Bool :=
  Signer.tokenReady now config

/-- The method `Firebase_ESP_Client::ready` (lines 94-97):
`return Signer.tokenReady();`. -/
def Firebase_ESP_Client.ready (now : Nat) (config : FirebaseConfig) : Bool :=
  Signer.tokenReady now config

/-- Modelled from the spec: the steps of the credential lifecycle manager
(section 3, `SignerState.step`), whose implementation is in the signer sources
that are not among the sources at hand. -/
inductive SignerStep where
  | Idle
  | Begin
  | ExchangeInFlight
  | ExchangeSucceeded
  | ExchangeFailed
  | Ready
  | Expired
deriving DecidableEq, Repr

/-- Modelled from the spec: the state of the credential lifecycle manager
(section 3, `SignerState`), defined in the signer sources that are not among
the sources at hand: the step, the attempt counter and the time of the last
attempt, with the expiry of the active credential and whether the selected
mode obtains its token by a network exchange (section 4.2: the anonymous,
custom-token and legacy-secret modes do not). The counters `sent` and
`answered` record the exchange requests dispatched and the exchanges that
ended by a response or a timeout; their difference is the number of exchanges
in flight. -/
structure SignerState where
  step : SignerStep
  attempts : Nat
  last_attempt_at : Nat
  expires_at : Nat
  needs_exchange : Bool
  sent : Nat
  answered : Nat
deriving DecidableEq, Repr

namespace SignerState

/-- Modelled from the spec: the manager at construction (section 3: "created at
manager construction in `Idle`"); the signer sources are not among the sources
at hand. -/
def initial : SignerState :=
  { step := SignerStep.Idle, attempts := 0, last_attempt_at := 0, expires_at := 0,
    needs_exchange := false, sent := 0, answered := 0 }

/-- Modelled from the spec: the effect of `begin` on the manager, which is in
the signer sources that are not among the sources at hand. Transition table of
section 4.3, row `Idle`: "`begin(config, mode)` → Begin"; the table has no
`begin` transition out of another state. -/
def begin (mode_needs_exchange : Bool) (s : SignerState) : SignerState :=
  match s.step with
  | SignerStep.Idle => { s with step := SignerStep.Begin, needs_exchange := mode_needs_exchange }
  | _ => s

/-- Modelled from the spec: one tick `Signer.handleToken()`, defined in the
signer sources that are not among the sources at hand. Transition table of
section 4.3, at clock reading `now`:

* `Begin`: "dispatch strategy → ExchangeInFlight, or directly → Ready if no
  exchange needed";
* `ExchangeInFlight`: "a second `handleToken` tick while `ExchangeInFlight` is
  a no-op";
* `ExchangeSucceeded`: "store Credential → Ready";
* `ExchangeFailed`: "increment attempts; ... → Begin";
* `Ready`: "periodic check: `now >= expires_at` → Expired";
* `Expired`: "→ Begin (auto re-exchange)";
* `Idle`: nothing to do before `begin`. -/
def handleToken (now : Nat) (s : SignerState) : SignerState :=
  match s.step with
  | SignerStep.Idle => s
  | SignerStep.Begin =>
    if s.needs_exchange then
      { s with step := SignerStep.ExchangeInFlight, sent := s.sent + 1, last_attempt_at := now }
    else
      { s with step := SignerStep.Ready }
  | SignerStep.ExchangeInFlight => s
  | SignerStep.ExchangeSucceeded => { s with step := SignerStep.Ready }
  | SignerStep.ExchangeFailed => { s with step := SignerStep.Begin, attempts := s.attempts + 1 }
  | SignerStep.Ready => if now ≥ s.expires_at then { s with step := SignerStep.Expired } else s
  | SignerStep.Expired => { s with step := SignerStep.Begin }

/-- Modelled from the spec: the end of an exchange, handled in the signer
sources that are not among the sources at hand. Transition table of section
4.3, row `ExchangeInFlight`: "response received → ExchangeSucceeded /
ExchangeFailed; transport timeout → ExchangeFailed". `outcome` is `some e` for
a response that parses to a credential with expiry `e` and `none` for a failed
response or a timeout; outside `ExchangeInFlight` there is no exchange to end. -/
def exchangeEnd (outcome : Option Nat) (s : SignerState) : SignerState :=
  match s.step with
  | SignerStep.ExchangeInFlight =>
    match outcome with
    | some e =>
      { s with step := SignerStep.ExchangeSucceeded, expires_at := e, answered := s.answered + 1 }
    | none => { s with step := SignerStep.ExchangeFailed, answered := s.answered + 1 }
  | _ => s

/-- The number of exchanges in flight: requests sent and not yet ended. -/
def inFlight (s : SignerState) : Nat := s.sent - s.answered

end SignerState

/-- Modelled from the spec: the manager states that can arise, the signer
sources not being among the sources at hand: the state at construction, and
every state obtained from one of them by `begin`, by a `handleToken` tick or
by the end of an exchange (section 2, control flow). -/
inductive SignerState.Reachable : SignerState → Prop where
  | initial : SignerState.Reachable SignerState.initial
  | begin (mode : Bool) (s : SignerState) :
      SignerState.Reachable s → SignerState.Reachable (SignerState.begin mode s)
  | handleToken (now : Nat) (s : SignerState) :
      SignerState.Reachable s → SignerState.Reachable (SignerState.handleToken now s)
  | exchangeEnd (outcome : Option Nat) (s : SignerState) :
      SignerState.Reachable s → SignerState.Reachable (SignerState.exchangeEnd outcome s)

/-- The manager after `begin` in a mode that needs an exchange and one tick at
clock reading 1700000000: the exchange request has been sent and is in
flight. -/
def inFlightState : SignerState :=
  SignerState.handleToken 1700000000 (SignerState.begin true SignerState.initial)

/-! ## Cloud messaging requests (`FIREBASE_CLASS`, lines 479-555) -/

/-- The enumeration `fb_esp_fcm_msg_type` (FB_Session.h, lines 51-56). -/
inductive fb_esp_fcm_msg_type where
  | msg_single
  | msg_multicast
  | msg_topic
deriving DecidableEq, Repr

/-- The error codes that `handleFCMRequest` stores in `http_code`. The macros
are defined in a header that is not among the sources, so their integer values
are arguments. -/
structure FCMErrorCodes where
  FIREBASE_ERROR_NO_FCM_SERVER_KEY_PROVIDED : Int
  FIREBASE_ERROR_NO_FCM_ID_TOKEN_PROVIDED : Int
  FIREBASE_ERROR_FCM_ID_TOKEN_AT_INDEX_NOT_FOUND : Int
  FIREBASE_ERROR_NO_FCM_TOPIC_PROVIDED : Int
deriving DecidableEq, Repr

/-- What `handleFCMRequest` reads of the `FirebaseData` object and of its
collaborators (transport, JSON parser, sender), which are outside the sources:

* `reconnect`, `waitIdle`: the results of `fbdo.reconnect()` and
  `ut->waitIdle(fbdo._ss.http_code)`, and `http_code`: the value of
  `fbdo._ss.http_code` those calls leave;
* `server_key`: `data.stringValue` after the first `json->get` on
  `fbdo.fcm.raw` (line 498);
* `idTokens`: the text `fbdo.fcm.idTokens`, and `tokens`: the value of
  `arr->size()` once the array was loaded from that text (line 513);
* `topic`: `data.stringValue` after the second `json->get` (line 523);
* `_index`: the member `fbdo.fcm._index`, a `uint16_t`;
* `fcm_send`, `fcm_send_code`: the result of `fbdo.fcm.fcm_send` and the
  `http_code` it leaves. -/
structure FCMSession where
  reconnect : Bool
  waitIdle : Bool
  http_code : Int
  server_key : String
  idTokens : String
  tokens : Nat
  topic : String
  _index : Nat
  fcm_send : Bool
  fcm_send_code : Int
deriving DecidableEq, Repr

/-- The outcome of a messaging request: the value returned, the `http_code` of
the session afterwards, and whether `fcm_send` was called. -/
structure FCMResult where
  ret : Bool
  http_code : Int
  sent : Bool
deriving DecidableEq, Repr

/-- Error codes for the concrete evaluations: four different integers. -/
def exampleCodes : FCMErrorCodes :=
  { FIREBASE_ERROR_NO_FCM_SERVER_KEY_PROVIDED := -101,
    FIREBASE_ERROR_NO_FCM_ID_TOKEN_PROVIDED := -102,
    FIREBASE_ERROR_FCM_ID_TOKEN_AT_INDEX_NOT_FOUND := -103,
    FIREBASE_ERROR_NO_FCM_TOPIC_PROVIDED := -104 }

/-- A connected, idle session with a server key whose device-token text is the
empty JSON array `[]`: the text is not empty, the array holds no token. -/
def emptyArraySession : FCMSession :=
  { reconnect := true, waitIdle := true, http_code := 0, server_key := "key",
    idTokens := "[]", tokens := 0, topic := "", _index := 0,
    fcm_send := true, fcm_send_code := 200 }

/-- A connected, idle session with a server key and one device token. -/
def oneTokenSession : FCMSession :=
  { reconnect := true, waitIdle := true, http_code := 0, server_key := "key",
    idTokens := "[\"device1\"]", tokens := 1, topic := "", _index := 0,
    fcm_send := true, fcm_send_code := 200 }

namespace FIREBASE_CLASS

/-- The method `FIREBASE_CLASS::handleFCMRequest` (lines 480-537), with
`size_t` of `w` bits.

```
if (!fbdo.reconnect()) return false;
if (!ut->waitIdle(fbdo._ss.http_code)) return false;
... json->get(data, <server key path>);
if (data.stringValue.length() == 0)
  { http_code = FIREBASE_ERROR_NO_FCM_SERVER_KEY_PROVIDED; return false; }
if (fbdo.fcm.idTokens.length() == 0 && messageType == msg_single)
  { http_code = FIREBASE_ERROR_NO_FCM_ID_TOKEN_PROVIDED; return false; }
... arr->setJsonArrayData(fbdo.fcm.idTokens.c_str());
if (messageType == msg_single && fbdo.fcm.idTokens.length() > 0
    && fbdo.fcm._index > arr->size() - 1)
  { http_code = FIREBASE_ERROR_FCM_ID_TOKEN_AT_INDEX_NOT_FOUND; return false; }
... json->get(data, <topic path>);
if (messageType == msg_topic && data.stringValue.length() == 0)
  { http_code = FIREBASE_ERROR_NO_FCM_TOPIC_PROVIDED; return false; }
fbdo.fcm.fcm_begin(fbdo);
return fbdo.fcm.fcm_send(fbdo, messageType);
```

`arr->size() - 1` is a subtraction of `size_t` values, so it is taken modulo
`2 ^ w`, and `_index` is converted to `size_t` for the comparison. -/
def handleFCMRequest (E : FCMErrorCodes) (w : Nat) (fbdo : FCMSession)
    (messageType : fb_esp_fcm_msg_type) : FCMResult :=
  if !fbdo.reconnect then
    { ret := false, http_code := fbdo.http_code, sent := false }
  else if !fbdo.waitIdle then
    { ret := false, http_code := fbdo.http_code, sent := false }
  else if MB_String.length fbdo.server_key == 0 then
    { ret := false, http_code := E.FIREBASE_ERROR_NO_FCM_SERVER_KEY_PROVIDED, sent := false }
  else if MB_String.length fbdo.idTokens == 0
      && messageType == fb_esp_fcm_msg_type.msg_single then
    { ret := false, http_code := E.FIREBASE_ERROR_NO_FCM_ID_TOKEN_PROVIDED, sent := false }
  else if messageType == fb_esp_fcm_msg_type.msg_single
      && decide (MB_String.length fbdo.idTokens > 0)
      && decide (fbdo._index % 2 ^ w > (fbdo.tokens + (2 ^ w - 1)) % 2 ^ w) then
    { ret := false, http_code := E.FIREBASE_ERROR_FCM_ID_TOKEN_AT_INDEX_NOT_FOUND,
      sent := false }
  else if messageType == fb_esp_fcm_msg_type.msg_topic
      && MB_String.length fbdo.topic == 0 then
    { ret := false, http_code := E.FIREBASE_ERROR_NO_FCM_TOPIC_PROVIDED, sent := false }
  else
    { ret := fbdo.fcm_send, http_code := fbdo.fcm_send_code, sent := true }

/-- The method `FIREBASE_CLASS::sendMessage` (lines 539-543):
`fbdo.fcm._index = index; return handleFCMRequest(fbdo, msg_single);`, with
`index` a `uint16_t`. -/
def sendMessage (E : FCMErrorCodes) (w : Nat) (fbdo : FCMSession) (index : Nat) : FCMResult :=
  handleFCMRequest E w { fbdo with _index := index } fb_esp_fcm_msg_type.msg_single

/-- The method `FIREBASE_CLASS::broadcastMessage` (lines 545-548):
`return handleFCMRequest(fbdo, msg_multicast);`. -/
def broadcastMessage (E : FCMErrorCodes) (w : Nat) (fbdo : FCMSession) : FCMResult :=
  handleFCMRequest E w fbdo fb_esp_fcm_msg_type.msg_multicast

/-- The method `FIREBASE_CLASS::sendTopic` (lines 550-553):
`return handleFCMRequest(fbdo, msg_topic);`. -/
def sendTopic (E : FCMErrorCodes) (w : Nat) (fbdo : FCMSession) : FCMResult :=
  handleFCMRequest E w fbdo fb_esp_fcm_msg_type.msg_topic

end FIREBASE_CLASS

/-- A connected, idle session without a server key; the other fields are
filled. -/
def noKeySession : FCMSession :=
  { oneTokenSession with server_key := "", topic := "news" }

/-- A connected, idle session with a server key but neither device tokens nor
a topic. -/
def noRecipientSession : FCMSession :=
  { oneTokenSession with idTokens := "", tokens := 0, topic := "" }

/-! ## The numeric getter `FirebaseData::to<T>()` (FB_Session.h, lines 572-623) -/

/-- Modelled from the spec: the enumeration `fb_esp_data_type` is declared in a
header that is not among the sources, and the spec does not list it. The values
are those named in `FB_Session.h` (lines 366-375, 575-589, 639, 669, 696). -/
inductive fb_esp_data_type where
  | d_any
  | d_null
  | d_integer
  | d_float
  | d_double
  | d_boolean
  | d_string
  | d_json
  | d_array
  | d_blob
  | d_file
  | d_timestamp
deriving DecidableEq, Repr

/-- The types `T` for which the numeric overload of `to<T>()` is enabled, as the
type traits of lines 591-620 tell them apart. -/
inductive NumType where
  | bool
  | int8
  | uint8
  | int16
  | uint16
  | int32
  | uint32
  | int64
  | uint64
  | float
  | double
deriving DecidableEq, Repr

/-- A value of one of the types `T`: a truth value, an integer, or a
floating-point number given by its IEEE-754 bit pattern (the embedding carries
floating-point values and never calculates with them). -/
inductive NumValue where
  | bool (b : Bool)
  | int (z : Int)
  | float (bits : Nat)
  | double (bits : Nat)
deriving DecidableEq, Repr

/-- What `to<T>()` reads of the `FirebaseData` object: the data types of the
response and of the request, the payload text, the eight bytes of the union
`IVal` (lines 859-869) read as an unsigned 64-bit number, and the two members
of `FVal` as bit patterns. -/
structure RTDBSession where
  resp_data_type : fb_esp_data_type
  req_data_type : fb_esp_data_type
  raw : String
  iVal : Nat
  fVal_d : Nat
  fVal_f : Nat
deriving DecidableEq, Repr

/-- The helpers that `to<T>()` calls and whose definitions are not among the
sources, as arguments: `setRaw(true)`, `mSetResBool`, `mSetResInt` and
`mSetResFloat` as transformations of the session, the text `num2Str(true, -1)`,
and the conversions of an integer to `float` and to `double` that the compiler
inserts at a `return`. -/
structure RTDBHelpers where
  setRaw : RTDBSession → RTDBSession
  mSetResBool : Bool → RTDBSession → RTDBSession
  mSetResInt : String → RTDBSession → RTDBSession
  mSetResFloat : String → RTDBSession → RTDBSession
  true_text : String
  float_of_int : Int → Nat
  double_of_int : Int → Nat

/-- The value of a `bits`-bit pattern read as a signed integer. -/
def toSigned (bits : Nat) (x : Nat) : Int :=
  if x % 2 ^ bits < 2 ^ (bits - 1) then (x % 2 ^ bits : Nat) else (x % 2 ^ bits : Nat) - 2 ^ bits

/-- The conversion of an integer value to the type `T` at a `return`: integer
types keep the value modulo their width, `bool` is true for a non-zero value,
the floating-point types use the conversions of the helpers. -/
def castInt (H : RTDBHelpers) (T : NumType) (x : Int) : NumValue :=
  match T with
  | NumType.bool => NumValue.bool (decide (x ≠ 0))
  | NumType.int8 => NumValue.int (toSigned 8 (x % 2 ^ 8).toNat)
  | NumType.uint8 => NumValue.int (x % 2 ^ 8)
  | NumType.int16 => NumValue.int (toSigned 16 (x % 2 ^ 16).toNat)
  | NumType.uint16 => NumValue.int (x % 2 ^ 16)
  | NumType.int32 => NumValue.int (toSigned 32 (x % 2 ^ 32).toNat)
  | NumType.uint32 => NumValue.int (x % 2 ^ 32)
  | NumType.int64 => NumValue.int (toSigned 64 (x % 2 ^ 64).toNat)
  | NumType.uint64 => NumValue.int (x % 2 ^ 64)
  | NumType.float => NumValue.float (H.float_of_int x)
  | NumType.double => NumValue.double (H.double_of_int x)

namespace FirebaseData

/-- The member `iVal.uint64`: the eight bytes of the union. -/
def iVal_uint64 (s : RTDBSession) : Nat := s.iVal % 2 ^ 64

/-- The first part of `to<T>()` (lines 575-587), which runs before any
`return` and refreshes the stored values from the payload.

```
if (_ss.rtdb.resp_data_type == d_string) setRaw(true);
if (_ss.rtdb.raw.length() > 0) {
  if (_ss.rtdb.resp_data_type == d_boolean)
    mSetResBool(strcmp(_ss.rtdb.raw.c_str(), num2Str(true, -1)) == 0);
  else if (resp_data_type == d_integer || == d_float || == d_double)
    { mSetResInt(_ss.rtdb.raw.c_str()); mSetResFloat(_ss.rtdb.raw.c_str()); }
}
``` -/
def to_refresh (H : RTDBHelpers) (s : RTDBSession) : RTDBSession :=
  let s1 := if s.resp_data_type == fb_esp_data_type.d_string then H.setRaw s else s
  if MB_String.length s1.raw > 0 then
    if s1.resp_data_type == fb_esp_data_type.d_boolean then
      H.mSetResBool (s1.raw == H.true_text) s1
    else if s1.resp_data_type == fb_esp_data_type.d_integer
        || s1.resp_data_type == fb_esp_data_type.d_float
        || s1.resp_data_type == fb_esp_data_type.d_double then
      H.mSetResFloat s1.raw (H.mSetResInt s1.raw s1)
    else s1
  else s1

/-- The numeric overload of `FirebaseData::to<T>()` (lines 572-623), after the
refresh of `to_refresh`; `to` alone is a reserved word, hence the name `to_T`.

```
if (_ss.rtdb.req_data_type == d_timestamp) {
  if (is_num_uint64<T>::value) return iVal.uint64;
  if (is_num_int32<T>::value || is_num_uint32<T>::value
      || is_num_int64<T>::value || is_num_uint64<T>::value)
    return iVal.uint64 / 1000;
  else return 0;
}
if (is_bool<T>::value) return iVal.int32 > 0;
else if (is_num_int8<T>::value) return iVal.int8;
else if (is_num_uint8<T>::value) return iVal.uint8;
else if (is_num_int16<T>::value) return iVal.int16;
else if (is_num_uint16<T>::value) return iVal.uint16;
else if (is_num_int32<T>::value) return iVal.int32;
else if (is_num_uint32<T>::value) return iVal.uint32;
else if (is_num_int64<T>::value) return iVal.int64;
else if (is_num_uint64<T>::value) return iVal.uint64;
else if (is_same<T, float>::value) return fVal.f;
else if (is_same<T, double>::value) return fVal.d;
else return 0;
```

The members of the union share their first bytes; the targets are
little-endian, so a member of `n` bits holds the `n` low bits of `iVal.uint64`. -/
def to_T (H : RTDBHelpers) (T : NumType) (s0 : RTDBSession) : NumValue :=
  let s := to_refresh H s0
  if s.req_data_type == fb_esp_data_type.d_timestamp then
    if T == NumType.uint64 then
      castInt H T (iVal_uint64 s)
    else if T == NumType.int32 || T == NumType.uint32 || T == NumType.int64
        || T == NumType.uint64 then
      castInt H T (iVal_uint64 s / 1000 : Nat)
    else
      castInt H T 0
  else if T == NumType.bool then NumValue.bool (decide (toSigned 32 (iVal_uint64 s) > 0))
  else if T == NumType.int8 then castInt H T (toSigned 8 (iVal_uint64 s))
  else if T == NumType.uint8 then castInt H T (iVal_uint64 s % 2 ^ 8 : Nat)
  else if T == NumType.int16 then castInt H T (toSigned 16 (iVal_uint64 s))
  else if T == NumType.uint16 then castInt H T (iVal_uint64 s % 2 ^ 16 : Nat)
  else if T == NumType.int32 then castInt H T (toSigned 32 (iVal_uint64 s))
  else if T == NumType.uint32 then castInt H T (iVal_uint64 s % 2 ^ 32 : Nat)
  else if T == NumType.int64 then castInt H T (toSigned 64 (iVal_uint64 s))
  else if T == NumType.uint64 then castInt H T (iVal_uint64 s)
  else if T == NumType.float then NumValue.float s.fVal_f
  else if T == NumType.double then NumValue.double s.fVal_d
  else castInt H T 0

end FirebaseData

/-- Helpers for the concrete evaluations: the texts are left as they are and
the stored values are not refreshed; the integer 0 converts to the bit pattern
0 of either floating-point type. -/
def exampleHelpers : RTDBHelpers :=
  { setRaw := fun s => s, mSetResBool := fun _ s => s, mSetResInt := fun _ s => s,
    mSetResFloat := fun _ s => s, true_text := "true",
    float_of_int := fun _ => 0, double_of_int := fun _ => 0 }

/-- A session that answered a timestamp request: the stored value is
1640995200123 milliseconds. -/
def timestampSession : RTDBSession :=
  { resp_data_type := fb_esp_data_type.d_null, req_data_type := fb_esp_data_type.d_timestamp,
    raw := "", iVal := 1640995200123, fVal_d := 0, fVal_f := 0 }

/-! ## The method `begin` (lines 63-87 and 312-337) -/

/-- What the surroundings deliver to `begin`: the surroundings of `init`, and
the helpers that `begin` calls and whose definitions are not among the
sources, as arguments: `Signer.authChanged(config, auth)` and
`Signer.handleToken()` as transformations of the configuration objects in
memory, and `url_host`, the host text that `ut->getUrlInfo` extracts from a
URL. -/
structure BeginEnv where
  init : InitEnv
  authChanged : Option Ptr → Option Ptr → Memory → Memory
  url_host : String → String
  handleToken : Memory → Memory

/-- Surroundings for the concrete evaluations: `Signer.authChanged` selects the
ID-token type in the configuration it is given, `getUrlInfo` returns the text
as the host, and `Signer.handleToken` sets the token status to
`token_status_on_request` in every configuration. -/
def exampleBeginEnv : BeginEnv :=
  { init := exampleEnv,
    authChanged := fun config _ m =>
      match config with
      | some p =>
        m.write p
          { m p with
            signer :=
              { (m p).signer with
                tokens :=
                  { (m p).signer.tokens with
                    token_type := fb_esp_auth_token_type.token_type_id_token } } }
      | none => m,
    url_host := fun s => s,
    handleToken := fun m a =>
      { m a with
        signer :=
          { (m a).signer with
            tokens :=
              { (m a).signer.tokens with
                status := fb_esp_auth_token_status.token_status_on_request } } } }

/-- A configuration in test mode: the flag `signer.test_mode` is set, a host is
given, the database URL holds an earlier text and `fb_auth_uri` is set. -/
def testModeConfig : FirebaseConfig :=
  { blankConfig with
    _int := { blankConfig._int with fb_auth_uri := true }
    signer := { blankConfig.signer with test_mode := true }
    host := "https://example.firebaseio.com/"
    database_url := "earlier.firebaseio.com" }

namespace FIREBASE_CLASS

/-- The method `FIREBASE_CLASS::begin` (lines 312-337).

```
init(config, auth);
if (!cfg->signer.test_mode) {
    Signer.authChanged(config, auth);
    struct fb_esp_url_info_t uinfo;
    cfg->_int.fb_auth_uri = cfg->signer.tokens.token_type == token_type_legacy_token
        || cfg->signer.tokens.token_type == token_type_id_token;
    if (cfg->host.length() > 0)
        cfg->database_url = cfg->host;
    if (cfg->database_url.length() > 0) {
        ut->getUrlInfo(cfg->database_url.c_str(), uinfo);
        cfg->database_url = uinfo.host.c_str();
    }
    if (cfg->cert.file.length() > 0)
        mbfs->checkStorageReady(mbfs_type cfg->cert.file_storage);
}
Signer.handleToken();
```

`init` always leaves `cfg` designating an object, so the case of a null `cfg`
after it does not arise. `checkStorageReady` receives a value and acts on the
file system; it does not write the configuration object. -/
def begin (E : BeginEnv) (f : Facade) (m : Memory) (config auth : Option Ptr) :
    Facade × Memory :=
  let r := init E.init f m config auth
  match r.1.cfg with
  | none => (r.1, E.handleToken r.2)
  | some q =>
    let m2 :=
      if !(r.2 q).signer.test_mode then
        let m3 := E.authChanged config auth r.2
        let c := m3 q
        let c1 :=
          { c with
            _int :=
              { c._int with
                fb_auth_uri :=
                  c.signer.tokens.token_type == fb_esp_auth_token_type.token_type_legacy_token
                    || c.signer.tokens.token_type == fb_esp_auth_token_type.token_type_id_token } }
        let c2 := if MB_String.length c1.host > 0 then { c1 with database_url := c1.host } else c1
        let c3 :=
          if MB_String.length c2.database_url > 0 then
            { c2 with database_url := E.url_host c2.database_url }
          else c2
        m3.write q c3
      else r.2
    (r.1, E.handleToken m2)

end FIREBASE_CLASS

namespace Firebase_ESP_Client

/-- The method `Firebase_ESP_Client::begin` (lines 63-87); its statements are
those of `FIREBASE_CLASS::begin`, with the `init` of this variant. -/
def begin (E : BeginEnv) (f : Facade) (m : Memory) (config auth : Option Ptr) :
    Facade × Memory :=
  let r := init E.init f m config auth
  match r.1.cfg with
  | none => (r.1, E.handleToken r.2)
  | some q =>
    let m2 :=
      if !(r.2 q).signer.test_mode then
        let m3 := E.authChanged config auth r.2
        let c := m3 q
        let c1 :=
          { c with
            _int :=
              { c._int with
                fb_auth_uri :=
                  c.signer.tokens.token_type == fb_esp_auth_token_type.token_type_legacy_token
                    || c.signer.tokens.token_type == fb_esp_auth_token_type.token_type_id_token } }
        let c2 := if MB_String.length c1.host > 0 then { c1 with database_url := c1.host } else c1
        let c3 :=
          if MB_String.length c2.database_url > 0 then
            { c2 with database_url := E.url_host c2.database_url }
          else c2
        m3.write q c3
      else r.2
    (r.1, E.handleToken m2)

end Firebase_ESP_Client

/-! ## Auxiliary facts -/

/-- A text has length zero exactly when it is the empty text. -/
theorem MB_String.length_eq_zero_iff (s : String) : MB_String.length s = 0 ↔ s = "" := by
  constructor
  · intro h
    cases s with
    | mk d =>
      cases d with
      | nil => rfl
      | cons c cs =>
        simp [MB_String.length, String.utf8ByteSize, String.utf8ByteSize.go] at h
        have := Char.utf8Size_pos c
        omega
  · rintro rfl; rfl

/-- The statement `if (expire > 3600) expire = 3600;` computes the minimum. -/
theorem clamp_eq_min (expire : Nat) :
    (if expire > 3600 then 3600 else expire) = min expire 3600 := by
  split <;> omega

/-- An accepted call of `FIREBASE_CLASS::mSetIdToken`, written out: a non-empty
token that differs from the stored one replaces it, and the fields of lines
402-417 are written. -/
theorem FIREBASE_CLASS.mSetIdToken_accept (w now : Nat) (c : FirebaseConfig) (tok : String)
    (expire : Nat) (hne : tok ≠ "") (hdiff : tok ≠ c._int.auth_token) :
    FIREBASE_CLASS.mSetIdToken w now (some c) tok expire =
      some
        { c with
          _int :=
            { c._int with
              auth_token := tok
              atok_len := MB_String.length tok
              ltok_len := 0
              fb_last_jwt_generation_error_cb_millis := 0 }
          signer :=
            { c.signer with
              tokens :=
                { c.signer.tokens with
                  expires := (c.signer.tokens.expires + (now + min expire 3600)) % 2 ^ w
                  status := fb_esp_auth_token_status.token_status_ready
                  token_type := fb_esp_auth_token_type.token_type_id_token }
              attempts := 0
              step := fb_esp_jwt_generation_step.fb_esp_jwt_generation_step_begin
              anonymous := true
              idTokenCutomSet := true } } := by
  have hlen : MB_String.length tok ≠ 0 := fun h => hne ((MB_String.length_eq_zero_iff tok).1 h)
  have hpos : MB_String.length tok > 0 := Nat.pos_of_ne_zero hlen
  have hd : ¬ (c._int.auth_token = tok) := fun h => hdiff h.symm
  simp only [FIREBASE_CLASS.mSetIdToken, clamp_eq_min]
  simp [hpos, hlen, hd]

/-- A rejected call of `FIREBASE_CLASS::mSetIdToken` on a configuration: an
empty token, or the token already stored, leaves the object as it is. -/
theorem FIREBASE_CLASS.mSetIdToken_reject (w now : Nat) (c : FirebaseConfig) (tok : String)
    (expire : Nat) (h : tok = "" ∨ tok = c._int.auth_token) :
    FIREBASE_CLASS.mSetIdToken w now (some c) tok expire = some c := by
  unfold FIREBASE_CLASS.mSetIdToken
  by_cases hpos : MB_String.length tok > 0
  · have hne : tok ≠ "" := fun h0 => by
      have := (MB_String.length_eq_zero_iff tok).2 h0
      omega
    have heq : c._int.auth_token = tok := by
      rcases h with h | h
      · exact absurd h hne
      · exact h.symm
    simp [hpos, heq]
  · simp [hpos]

/-- The two facade variants of `mSetIdToken` are the same function of their
arguments. -/
theorem Firebase_ESP_Client.mSetIdToken_eq (w now : Nat) (config : Option FirebaseConfig)
    (tok : String) (expire : Nat) :
    Firebase_ESP_Client.mSetIdToken w now config tok expire =
      FIREBASE_CLASS.mSetIdToken w now config tok expire := rfl


/-- The first override of a blank configuration: `tokenA`, requested for 3600
seconds at clock reading 1700000000, yields `tokenAConfig`, whose expiry is
1700003600. -/
theorem mSetIdToken_blank_tokenA :
    FIREBASE_CLASS.mSetIdToken 32 1700000000 (some blankConfig) "tokenA" 3600 =
      some tokenAConfig := by decide

/-! ## Claims on the external token override -/

/-- C1, evaluated on the code: the expiry is not bounded by `now + 3600` when
`tokens.expires` held a value before the call. After `tokenA` was injected at
clock reading 1700000000 (expiry 1700003600), injecting the different token
`tokenB` for 3600 seconds at clock reading 1700000100 adds the clock reading
and the lifetime to the stored expiry (`+=`, lines 150 and 409): the result is
3400007300, far above 1700000100 + 3600, in both facade variants. -/
theorem C1_mSetIdToken_expires_accumulates :
    (FIREBASE_CLASS.mSetIdToken 32 1700000100
        (FIREBASE_CLASS.mSetIdToken 32 1700000000 (some blankConfig) "tokenA" 3600)
        "tokenB" 3600).map (fun c => c.signer.tokens.expires) = some 3400007300
    ∧ (Firebase_ESP_Client.mSetIdToken 32 1700000100
        (Firebase_ESP_Client.mSetIdToken 32 1700000000 (some blankConfig) "tokenA" 3600)
        "tokenB" 3600).map (fun c => c.signer.tokens.expires) = some 3400007300
    ∧ ¬ (3400007300 ≤ 1700000100 + 3600) := by decide

/-- C2, as stated, fails: the call that re-submits the stored token `tokenA` is
rejected, yet afterwards `auth_token` equals the submitted token and `atok_len`
equals its length, although the token does not differ from the one stored
before the call. -/
theorem C2_counterexample_same_token :
    (FIREBASE_CLASS.mSetIdToken 32 1700000100 (some tokenAConfig) "tokenA" 3600).map
        (fun c => (c._int.auth_token, c._int.atok_len)) =
      some ("tokenA", MB_String.length "tokenA")
    ∧ ¬ ("tokenA" ≠ "" ∧ "tokenA" ≠ tokenAConfig._int.auth_token) := by decide

/-- C2, amended: for a configuration `c`, the call changes the object and
leaves `auth_token` equal to `tok` and `atok_len` equal to the length of `tok`
if and only if `tok` is non-empty and differs from the token stored before. -/
theorem C2_mSetIdToken_accepts_iff (w now : Nat) (c : FirebaseConfig) (tok : String)
    (expire : Nat) :
    (FIREBASE_CLASS.mSetIdToken w now (some c) tok expire ≠ some c
      ∧ ∃ c', FIREBASE_CLASS.mSetIdToken w now (some c) tok expire = some c'
          ∧ c'._int.auth_token = tok ∧ c'._int.atok_len = MB_String.length tok)
    ↔ (tok ≠ "" ∧ tok ≠ c._int.auth_token) := by
  constructor
  · rintro ⟨hchg, -⟩
    by_contra hn
    apply hchg
    apply FIREBASE_CLASS.mSetIdToken_reject
    by_cases h1 : tok = ""
    · exact Or.inl h1
    · by_cases h2 : tok = c._int.auth_token
      · exact Or.inr h2
      · exact absurd ⟨h1, h2⟩ hn
  · rintro ⟨hne, hdiff⟩
    rw [FIREBASE_CLASS.mSetIdToken_accept w now c tok expire hne hdiff]
    refine ⟨?_, _, rfl, rfl, rfl⟩
    intro h
    have h2 := congrArg (fun o => o.map (fun c => c._int.auth_token)) h
    simp at h2
    exact hdiff h2

/-- C3: a rejected call is a no-op. When the configuration pointer is null, or
the token is empty, or the token equals the stored one, the call returns the
configuration object unchanged in every field, whatever `expire` is, in both
facade variants. -/
theorem C3_mSetIdToken_rejected_noop (w now : Nat) (config : Option FirebaseConfig)
    (tok : String) (expire : Nat)
    (h : config = none ∨ tok = "" ∨ ∃ c, config = some c ∧ tok = c._int.auth_token) :
    FIREBASE_CLASS.mSetIdToken w now config tok expire = config
    ∧ Firebase_ESP_Client.mSetIdToken w now config tok expire = config := by
  rw [Firebase_ESP_Client.mSetIdToken_eq]
  refine ⟨?_, ?_⟩ <;>
  · cases config with
    | none => rfl
    | some c =>
      apply FIREBASE_CLASS.mSetIdToken_reject
      rcases h with h | h | ⟨c0, h1, h2⟩
      · cases h
      · exact Or.inl h
      · cases h1; exact Or.inr h2

/-- C3 at concrete inputs: the empty token with lifetime 0 leaves `tokenAConfig`
unchanged. -/
theorem C3_mSetIdToken_rejected_noop_witness :
    FIREBASE_CLASS.mSetIdToken 32 1700000100 (some tokenAConfig) "" 0 = some tokenAConfig
    ∧ Firebase_ESP_Client.mSetIdToken 32 1700000100 (some tokenAConfig) "" 0 =
        some tokenAConfig :=
  C3_mSetIdToken_rejected_noop 32 1700000100 (some tokenAConfig) "" 0 (Or.inr (Or.inl rfl))

/-- C4, as stated, fails where the sum leaves the range of the field: on the
blank configuration (expiry 0) the accepted call with lifetime 3600 at clock
reading 4294967295 (the last second below `2 ^ 32`, which a 64-bit `time_t`
delivers) stores 3599 in a 32-bit `expires`, not 4294967295 + min(3600, 3600). -/
theorem C4_counterexample_wraps :
    blankConfig.signer.tokens.expires = 0
    ∧ ("tokenA" ≠ "" ∧ "tokenA" ≠ blankConfig._int.auth_token)
    ∧ (FIREBASE_CLASS.mSetIdToken 32 4294967295 (some blankConfig) "tokenA" 3600).map
        (fun c => c.signer.tokens.expires) = some 3599
    ∧ 3599 ≠ 4294967295 + min 3600 3600 := by decide

/-- C4, amended: an accepted call at clock reading `now` on a configuration
whose `tokens.expires` is 0 stores `now + min(expire, 3600)` reduced modulo
`2 ^ w`; whenever that sum fits the field the stored value is exactly
`now + min(expire, 3600)`, and for `expire <= 3600` it is `now + expire`. -/
theorem C4_mSetIdToken_expires_from_zero (w now : Nat) (c : FirebaseConfig) (tok : String)
    (expire : Nat) (hne : tok ≠ "") (hdiff : tok ≠ c._int.auth_token)
    (h0 : c.signer.tokens.expires = 0) :
    ∃ c', FIREBASE_CLASS.mSetIdToken w now (some c) tok expire = some c'
      ∧ c'.signer.tokens.expires = (now + min expire 3600) % 2 ^ w
      ∧ (now + min expire 3600 < 2 ^ w →
          c'.signer.tokens.expires = now + min expire 3600)
      ∧ (expire ≤ 3600 → now + expire < 2 ^ w →
          c'.signer.tokens.expires = now + expire) := by
  refine ⟨_, FIREBASE_CLASS.mSetIdToken_accept w now c tok expire hne hdiff, ?_, ?_, ?_⟩
  · simp [h0]
  · intro hfit
    simp [h0, Nat.mod_eq_of_lt hfit]
  · intro hle hfit
    have hmin : min expire 3600 = expire := Nat.min_eq_left hle
    simp [h0, hmin, Nat.mod_eq_of_lt hfit]

/-- C4 at concrete inputs: on the blank configuration, `tokenA` requested for
600 seconds at clock reading 1700000000 expires at 1700000600. -/
theorem C4_mSetIdToken_expires_from_zero_witness :
    ∃ c', FIREBASE_CLASS.mSetIdToken 32 1700000000 (some blankConfig) "tokenA" 600 = some c'
      ∧ c'.signer.tokens.expires = (1700000000 + min 600 3600) % 2 ^ 32
      ∧ (1700000000 + min 600 3600 < 2 ^ 32 →
          c'.signer.tokens.expires = 1700000000 + min 600 3600)
      ∧ (600 ≤ 3600 → 1700000000 + 600 < 2 ^ 32 →
          c'.signer.tokens.expires = 1700000000 + 600) :=
  C4_mSetIdToken_expires_from_zero 32 1700000000 blankConfig "tokenA" 600
    (by decide) (by decide) rfl

/-- C5, as stated, fails: on the blank configuration the accepted call with
lifetime 600 at clock reading 1700000000 stores 1700000600, so the lifetime
added to the clock reading is 600, not 3600. -/
theorem C5_counterexample_short_lifetime :
    ("tokenA" ≠ "" ∧ "tokenA" ≠ blankConfig._int.auth_token)
    ∧ (FIREBASE_CLASS.mSetIdToken 32 1700000000 (some blankConfig) "tokenA" 600).map
        (fun c => c.signer.tokens.expires) = some (1700000000 + 600)
    ∧ (FIREBASE_CLASS.mSetIdToken 32 1700000000 (some blankConfig) "tokenA" 600).map
        (fun c => c.signer.tokens.expires) ≠
      some ((blankConfig.signer.tokens.expires + (1700000000 + 3600)) % 2 ^ 32) := by decide

/-- C5, amended: in an accepted call the lifetime added to the clock reading
when `tokens.expires` is computed is `min(expire, 3600)`: it is `expire`
itself for every `expire` below 3600, and 3600 only from 3600 upwards. -/
theorem C5_mSetIdToken_lifetime_is_min (w now : Nat) (c : FirebaseConfig) (tok : String)
    (expire : Nat) (hne : tok ≠ "") (hdiff : tok ≠ c._int.auth_token) :
    ∃ c', FIREBASE_CLASS.mSetIdToken w now (some c) tok expire = some c'
      ∧ c'.signer.tokens.expires =
          (c.signer.tokens.expires + (now + min expire 3600)) % 2 ^ w
      ∧ (expire < 3600 → c'.signer.tokens.expires =
          (c.signer.tokens.expires + (now + expire)) % 2 ^ w)
      ∧ (3600 ≤ expire → c'.signer.tokens.expires =
          (c.signer.tokens.expires + (now + 3600)) % 2 ^ w) := by
  refine ⟨_, FIREBASE_CLASS.mSetIdToken_accept w now c tok expire hne hdiff, rfl, ?_, ?_⟩
  · intro hlt
    have hmin : min expire 3600 = expire := Nat.min_eq_left (Nat.le_of_lt hlt)
    simp [hmin]
  · intro hge
    have hmin : min expire 3600 = 3600 := Nat.min_eq_right hge
    simp [hmin]

/-- C5 at concrete inputs: `tokenA` requested for 600 seconds on the blank
configuration. -/
theorem C5_mSetIdToken_lifetime_is_min_witness :
    ∃ c', FIREBASE_CLASS.mSetIdToken 32 1700000000 (some blankConfig) "tokenA" 600 = some c'
      ∧ c'.signer.tokens.expires =
          (blankConfig.signer.tokens.expires + (1700000000 + min 600 3600)) % 2 ^ 32
      ∧ (600 < 3600 → c'.signer.tokens.expires =
          (blankConfig.signer.tokens.expires + (1700000000 + 600)) % 2 ^ 32)
      ∧ (3600 ≤ 600 → c'.signer.tokens.expires =
          (blankConfig.signer.tokens.expires + (1700000000 + 3600)) % 2 ^ 32) :=
  C5_mSetIdToken_lifetime_is_min 32 1700000000 blankConfig "tokenA" 600
    (by decide) (by decide)

/-- C6: an accepted call leaves a ready credential of type ID token without any
exchange: afterwards `tokens.status` is `token_status_ready`,
`tokens.token_type` is `token_type_id_token` (so not the undefined type),
`signer.attempts` is 0, `signer.step` is `fb_esp_jwt_generation_step_begin`,
`ltok_len` is 0, and the flags `anonymous` and `idTokenCutomSet` are true. -/
theorem C6_mSetIdToken_accepted_ready (w now : Nat) (c : FirebaseConfig) (tok : String)
    (expire : Nat) (hne : tok ≠ "") (hdiff : tok ≠ c._int.auth_token) :
    ∃ c', FIREBASE_CLASS.mSetIdToken w now (some c) tok expire = some c'
      ∧ c'.signer.tokens.status = fb_esp_auth_token_status.token_status_ready
      ∧ c'.signer.tokens.token_type = fb_esp_auth_token_type.token_type_id_token
      ∧ c'.signer.tokens.token_type ≠ fb_esp_auth_token_type.token_type_undefined
      ∧ c'.signer.attempts = 0
      ∧ c'.signer.step = fb_esp_jwt_generation_step.fb_esp_jwt_generation_step_begin
      ∧ c'._int.ltok_len = 0
      ∧ c'.signer.anonymous = true
      ∧ c'.signer.idTokenCutomSet = true := by
  refine ⟨_, FIREBASE_CLASS.mSetIdToken_accept w now c tok expire hne hdiff,
    rfl, rfl, ?_, rfl, rfl, rfl, rfl, rfl⟩
  simp

/-- C6 at concrete inputs: `tokenA` injected into the blank configuration,
whose status was uninitialised and whose token type was undefined. -/
theorem C6_mSetIdToken_accepted_ready_witness :
    ∃ c', FIREBASE_CLASS.mSetIdToken 32 1700000000 (some blankConfig) "tokenA" 3600 = some c'
      ∧ c'.signer.tokens.status = fb_esp_auth_token_status.token_status_ready
      ∧ c'.signer.tokens.token_type = fb_esp_auth_token_type.token_type_id_token
      ∧ c'.signer.tokens.token_type ≠ fb_esp_auth_token_type.token_type_undefined
      ∧ c'.signer.attempts = 0
      ∧ c'.signer.step = fb_esp_jwt_generation_step.fb_esp_jwt_generation_step_begin
      ∧ c'._int.ltok_len = 0
      ∧ c'.signer.anonymous = true
      ∧ c'.signer.idTokenCutomSet = true :=
  C6_mSetIdToken_accepted_ready 32 1700000000 blankConfig "tokenA" 3600
    (by decide) (by decide)

/-- C7, evaluated on the code: the invariant `expires_at >= issued_at` is
broken by the accumulation of `tokens.expires += time(nullptr) + expire` (line
409), the defect recorded under C1. Starting from the blank configuration,
three different tokens injected for 3600 seconds at clock readings 1700000000,
1700000100 and 1700000200 are all accepted; the second call leaves the stale
sum 3400007300, and the third call adds the clock reading and the lifetime to
it in the 32-bit field and leaves `tokens.expires` at 805043804, below the
clock reading 1700000200 at which the token was issued. The same third call on
a configuration whose `tokens.expires` is 0 leaves 1700003800, which is not
below the clock reading. -/
theorem C7_mSetIdToken_expires_below_now :
    (FIREBASE_CLASS.mSetIdToken 32 1700000100
        (FIREBASE_CLASS.mSetIdToken 32 1700000000 (some blankConfig) "tokenA" 3600)
        "tokenB" 3600).map (fun c => (c._int.auth_token, c.signer.tokens.expires)) =
      some ("tokenB", 3400007300)
    ∧ (FIREBASE_CLASS.mSetIdToken 32 1700000200
        (FIREBASE_CLASS.mSetIdToken 32 1700000100
          (FIREBASE_CLASS.mSetIdToken 32 1700000000 (some blankConfig) "tokenA" 3600)
          "tokenB" 3600)
        "tokenC" 3600).map (fun c => (c._int.auth_token, c.signer.tokens.expires)) =
      some ("tokenC", 805043804)
    ∧ ¬ (1700000200 ≤ 805043804)
    ∧ (FIREBASE_CLASS.mSetIdToken 32 1700000200 (some blankConfig) "tokenC" 3600).map
        (fun c => (c._int.auth_token, c.signer.tokens.expires)) = some ("tokenC", 1700003800)
    ∧ 1700000200 ≤ 1700003800 := by decide

/-- C8: re-injecting the current token is idempotent. For every configuration
pointer, token and lifetimes `e1`, `e2`, the call with `e1` at clock reading
`now1` followed by the call with the same token and `e2` at clock reading
`now2` leaves the configuration exactly as the first call left it, so the
second call does not change `tokens.expires`. It holds for the empty token as
well, both calls being rejected then. -/
theorem C8_mSetIdToken_reinject_idempotent (w now1 now2 : Nat)
    (config : Option FirebaseConfig) (tok : String) (e1 e2 : Nat) :
    FIREBASE_CLASS.mSetIdToken w now2 (FIREBASE_CLASS.mSetIdToken w now1 config tok e1) tok e2 =
      FIREBASE_CLASS.mSetIdToken w now1 config tok e1 := by
  cases config with
  | none => rfl
  | some c =>
    by_cases hne : tok = ""
    · rw [FIREBASE_CLASS.mSetIdToken_reject w now1 c tok e1 (Or.inl hne)]
      exact FIREBASE_CLASS.mSetIdToken_reject w now2 c tok e2 (Or.inl hne)
    · by_cases hdiff : tok = c._int.auth_token
      · rw [FIREBASE_CLASS.mSetIdToken_reject w now1 c tok e1 (Or.inr hdiff)]
        exact FIREBASE_CLASS.mSetIdToken_reject w now2 c tok e2 (Or.inr hdiff)
      · rw [FIREBASE_CLASS.mSetIdToken_accept w now1 c tok e1 hne hdiff]
        exact FIREBASE_CLASS.mSetIdToken_reject w now2 _ tok e2 (Or.inr rfl)

/-! ## Claims on the precision settings -/

/-- C9, as stated, fails at the upper ends of the ranges: `setFloatDigits(7)`
leaves `fb_float_digits` at its previous value 5, and `setDoubleDigits(9)`
leaves `fb_double_digits` at its previous value 4, in both facade variants. -/
theorem C9_counterexample_upper_end :
    (FIREBASE_CLASS.setFloatDigits blankConfig 7)._int.fb_float_digits = 5
    ∧ (Firebase_ESP_Client.setFloatDigits (some blankConfig) 7).map
        (fun c => c._int.fb_float_digits) = some 5
    ∧ (FIREBASE_CLASS.setDoubleDigits
        (FIREBASE_CLASS.setDoubleDigits blankConfig 4) 9)._int.fb_double_digits = 4
    ∧ (Firebase_ESP_Client.setDoubleDigits
        (Firebase_ESP_Client.setDoubleDigits (some blankConfig) 4) 9).map
        (fun c => c._int.fb_double_digits) = some 4 := by decide

/-- C9, amended: every precision strictly below the bound is accepted. For
every `digits < 7`, `setFloatDigits(digits)` on a facade with a configuration
stores `digits` in `fb_float_digits`, and for every `digits < 9`,
`setDoubleDigits(digits)` stores `digits` in `fb_double_digits`, in both
facade variants. -/
theorem C9_setDigits_below_bound_stored (c : FirebaseConfig) (digits : Nat) :
    (digits < 7 →
      (FIREBASE_CLASS.setFloatDigits c digits)._int.fb_float_digits = digits
      ∧ (Firebase_ESP_Client.setFloatDigits (some c) digits).map
          (fun c => c._int.fb_float_digits) = some digits)
    ∧ (digits < 9 →
      (FIREBASE_CLASS.setDoubleDigits c digits)._int.fb_double_digits = digits
      ∧ (Firebase_ESP_Client.setDoubleDigits (some c) digits).map
          (fun c => c._int.fb_double_digits) = some digits) := by
  constructor
  · intro h
    simp [FIREBASE_CLASS.setFloatDigits, Firebase_ESP_Client.setFloatDigits, h]
  · intro h
    simp [FIREBASE_CLASS.setDoubleDigits, Firebase_ESP_Client.setDoubleDigits, h]

/-- C9 at concrete inputs: the precision 6 is stored by all four setters. -/
theorem C9_setDigits_below_bound_stored_witness :
    ((FIREBASE_CLASS.setFloatDigits blankConfig 6)._int.fb_float_digits = 6
      ∧ (Firebase_ESP_Client.setFloatDigits (some blankConfig) 6).map
          (fun c => c._int.fb_float_digits) = some 6)
    ∧ ((FIREBASE_CLASS.setDoubleDigits blankConfig 6)._int.fb_double_digits = 6
      ∧ (Firebase_ESP_Client.setDoubleDigits (some blankConfig) 6).map
          (fun c => c._int.fb_double_digits) = some 6) :=
  ⟨(C9_setDigits_below_bound_stored blankConfig 6).1 (by decide),
    (C9_setDigits_below_bound_stored blankConfig 6).2 (by decide)⟩

/-- C10: out-of-range precisions are ignored silently. For every `digits > 7`,
`setFloatDigits(digits)` returns the whole configuration unchanged, and for
every `digits > 9`, `setDoubleDigits(digits)` does, in both facade variants
(in `Firebase_ESP_Client` also when the facade has no configuration). -/
theorem C10_setDigits_out_of_range_ignored (c : FirebaseConfig)
    (cfg : Option FirebaseConfig) (digits : Nat) :
    (digits > 7 →
      FIREBASE_CLASS.setFloatDigits c digits = c
      ∧ Firebase_ESP_Client.setFloatDigits cfg digits = cfg)
    ∧ (digits > 9 →
      FIREBASE_CLASS.setDoubleDigits c digits = c
      ∧ Firebase_ESP_Client.setDoubleDigits cfg digits = cfg) := by
  constructor
  · intro h
    have h7 : ¬ digits < 7 := by omega
    cases cfg <;> simp [FIREBASE_CLASS.setFloatDigits, Firebase_ESP_Client.setFloatDigits, h7]
  · intro h
    have h9 : ¬ digits < 9 := by omega
    cases cfg <;> simp [FIREBASE_CLASS.setDoubleDigits, Firebase_ESP_Client.setDoubleDigits, h9]

/-- C10 at concrete inputs: the precision 200 leaves `tokenAConfig` unchanged
under all four setters. -/
theorem C10_setDigits_out_of_range_ignored_witness :
    (FIREBASE_CLASS.setFloatDigits tokenAConfig 200 = tokenAConfig
      ∧ Firebase_ESP_Client.setFloatDigits (some tokenAConfig) 200 = some tokenAConfig)
    ∧ (FIREBASE_CLASS.setDoubleDigits tokenAConfig 200 = tokenAConfig
      ∧ Firebase_ESP_Client.setDoubleDigits (some tokenAConfig) 200 = some tokenAConfig) :=
  ⟨(C10_setDigits_out_of_range_ignored tokenAConfig (some tokenAConfig) 200).1 (by decide),
    (C10_setDigits_out_of_range_ignored tokenAConfig (some tokenAConfig) 200).2 (by decide)⟩

/-! ## Auxiliary facts on `init` -/

/-- Reading an address just written yields the written object. -/
theorem Memory.write_same (m : Memory) (p : Ptr) (c : FirebaseConfig) :
    m.write p c p = c := by
  simp [Memory.write]

/-- Reading another address is not affected by a write. -/
theorem Memory.write_other (m : Memory) (p a : Ptr) (c : FirebaseConfig) (h : a ≠ p) :
    m.write p c a = m a := by
  simp [Memory.write, h]

/-- With a non-null `config`, `FIREBASE_CLASS::init` works on the object the
facade already designates, or on `config` when the facade designates none, and
stores `initWrites` of it; the facade keeps the pointers it had. -/
theorem FIREBASE_CLASS.init_some (env : InitEnv) (f : Facade) (m : Memory) (p : Ptr)
    (auth : Option Ptr) :
    FIREBASE_CLASS.init env f m (some p) auth =
      ({ cfg := some (f.cfg.getD p),
         auth := some ((if f.auth.isNone then auth else f.auth).getD env.newAuth) },
       m.write (f.cfg.getD p) (initWrites env.autoReconnect (m (f.cfg.getD p)))) := by
  obtain ⟨fc, fa⟩ := f
  cases fc <;> cases fa <;> cases auth <;>
    simp [FIREBASE_CLASS.init, initWrites] <;>
    (split <;> simp_all)

/-- With a non-null `config`, `Firebase_ESP_Client::init` works on `config` and
stores `initWrites` of it; the facade designates the objects just passed. -/
theorem Firebase_ESP_Client.init_some_client (env : InitEnv) (f : Facade) (m : Memory) (p : Ptr)
    (auth : Option Ptr) :
    Firebase_ESP_Client.init env f m (some p) auth =
      ({ cfg := some p, auth := some (auth.getD env.newAuth) },
       m.write p (initWrites env.autoReconnect (m p))) := by
  cases auth <;>
    simp [Firebase_ESP_Client.init, initWrites] <;>
    (split <;> simp_all)

/-! ## Claims on `init` -/

/-- C11, as stated, fails: on a configuration left by a sign-up (`signup` set,
`anonymous` not set, expiry 1700003600) one run of `init` keeps the expiry and
clears `signup`, so a second run with the same arguments resets the expiry to
0, in both facade variants. -/
theorem C11_counterexample_signup_expiry :
    (activeConfig (FIREBASE_CLASS.init exampleEnv ⟨none, none⟩ exampleMemory
        (some 1) (some 2))).map (fun c => c.signer.tokens.expires) = some 1700003600
    ∧ (activeConfig (FIREBASE_CLASS.initTwice exampleEnv ⟨none, none⟩ exampleMemory
        (some 1) (some 2))).map (fun c => c.signer.tokens.expires) = some 0
    ∧ (activeConfig (Firebase_ESP_Client.init exampleEnv ⟨none, none⟩ exampleMemory
        (some 1) (some 2))).map (fun c => c.signer.tokens.expires) = some 1700003600
    ∧ (activeConfig (Firebase_ESP_Client.initTwice exampleEnv ⟨none, none⟩ exampleMemory
        (some 1) (some 2))).map (fun c => c.signer.tokens.expires) = some 0 := by decide

/-- C11, amended: running `init` twice in succession with the same non-null
`config` and the same `auth` leaves `signer.lastReqMillis`, `signer.signup`
and `signer.tokens.error.message` of the configuration the facade works on as
one run leaves them, and `signer.tokens.expires` as well whenever, before the
first run, `signer.anonymous` was true or `signer.signup` was false. In
`FIREBASE_CLASS` the object worked on is the one the facade designated before,
or `config` if it designated none; in `Firebase_ESP_Client` it is `config`. -/
theorem C11_init_twice_same_fields (env : InitEnv) (f : Facade) (m : Memory) (p : Ptr)
    (auth : Option Ptr) :
    ((activeConfig (FIREBASE_CLASS.initTwice env f m (some p) auth)).map
        (fun c => (c.signer.lastReqMillis, c.signer.signup, c.signer.tokens.error.message)) =
      (activeConfig (FIREBASE_CLASS.init env f m (some p) auth)).map
        (fun c => (c.signer.lastReqMillis, c.signer.signup, c.signer.tokens.error.message))
      ∧ ((m (f.cfg.getD p)).signer.anonymous = true ∨ (m (f.cfg.getD p)).signer.signup = false →
        (activeConfig (FIREBASE_CLASS.initTwice env f m (some p) auth)).map
            (fun c => c.signer.tokens.expires) =
          (activeConfig (FIREBASE_CLASS.init env f m (some p) auth)).map
            (fun c => c.signer.tokens.expires)))
    ∧ ((activeConfig (Firebase_ESP_Client.initTwice env f m (some p) auth)).map
        (fun c => (c.signer.lastReqMillis, c.signer.signup, c.signer.tokens.error.message)) =
      (activeConfig (Firebase_ESP_Client.init env f m (some p) auth)).map
        (fun c => (c.signer.lastReqMillis, c.signer.signup, c.signer.tokens.error.message))
      ∧ ((m p).signer.anonymous = true ∨ (m p).signer.signup = false →
        (activeConfig (Firebase_ESP_Client.initTwice env f m (some p) auth)).map
            (fun c => c.signer.tokens.expires) =
          (activeConfig (Firebase_ESP_Client.init env f m (some p) auth)).map
            (fun c => c.signer.tokens.expires))) := by
  refine ⟨⟨?_, ?_⟩, ⟨?_, ?_⟩⟩
  · simp [FIREBASE_CLASS.initTwice, FIREBASE_CLASS.init_some, activeConfig,
      Memory.write_same, initWrites]
  · intro h
    simp only [FIREBASE_CLASS.initTwice, FIREBASE_CLASS.init_some, activeConfig,
      Option.map_some', Option.getD_some, Memory.write_same]
    rcases h with h | h
    · simp [initWrites, h]
    · simp only [initWrites, h]
      cases (m (f.cfg.getD p)).signer.anonymous <;> simp
  · simp [Firebase_ESP_Client.initTwice, Firebase_ESP_Client.init_some_client, activeConfig,
      Memory.write_same, initWrites]
  · intro h
    simp only [Firebase_ESP_Client.initTwice, Firebase_ESP_Client.init_some_client, activeConfig,
      Option.map_some', Memory.write_same]
    rcases h with h | h
    · simp [initWrites, h]
    · simp only [initWrites, h]
      cases (m p).signer.anonymous <;> simp

/-- C11 at concrete inputs: on the legacy-secret configuration at address 3
(neither `anonymous` nor `signup` set) two runs leave the expiry as one run
does. -/
theorem C11_init_twice_same_fields_witness :
    (activeConfig (FIREBASE_CLASS.initTwice exampleEnv ⟨none, none⟩ exampleMemory
        (some 3) (some 4))).map (fun c => c.signer.tokens.expires) =
      (activeConfig (FIREBASE_CLASS.init exampleEnv ⟨none, none⟩ exampleMemory
        (some 3) (some 4))).map (fun c => c.signer.tokens.expires)
    ∧ (activeConfig (Firebase_ESP_Client.initTwice exampleEnv ⟨none, none⟩ exampleMemory
        (some 3) (some 4))).map (fun c => c.signer.tokens.expires) =
      (activeConfig (Firebase_ESP_Client.init exampleEnv ⟨none, none⟩ exampleMemory
        (some 3) (some 4))).map (fun c => c.signer.tokens.expires) :=
  ⟨(C11_init_twice_same_fields exampleEnv ⟨none, none⟩ exampleMemory 3 (some 4)).1.2
      (Or.inr (by decide)),
    (C11_init_twice_same_fields exampleEnv ⟨none, none⟩ exampleMemory 3 (some 4)).2.2
      (Or.inr (by decide))⟩

/-- C12, as stated, fails for `init`: the configuration at address 1 holds the
error text `EMAIL_EXISTS`, and after `init` the error text of the
configuration the facade works on is empty, in both facade variants. -/
theorem C12_counterexample_init_clears_message :
    (exampleMemory 1).signer.tokens.error.message = "EMAIL_EXISTS"
    ∧ (activeConfig (FIREBASE_CLASS.init exampleEnv ⟨none, none⟩ exampleMemory
        (some 1) (some 2))).map (fun c => c.signer.tokens.error.message) = some ""
    ∧ (activeConfig (Firebase_ESP_Client.init exampleEnv ⟨none, none⟩ exampleMemory
        (some 1) (some 2))).map (fun c => c.signer.tokens.error.message) = some "" := by
  decide

/-- C12, amended: `mSetIdToken`, `setFloatDigits` and `setDoubleDigits` leave
`signer.tokens.error.message` unchanged, in both facade variants and whether
or not the token is accepted; `init` does not: it leaves the error text of the
configuration the facade works on empty. -/
theorem C12_error_message_frame (w now : Nat) (c : FirebaseConfig) (tok : String)
    (expire digits : Nat) (env : InitEnv) (f : Facade) (m : Memory)
    (config auth : Option Ptr) :
    (FIREBASE_CLASS.mSetIdToken w now (some c) tok expire).map
        (fun c => c.signer.tokens.error.message) = some c.signer.tokens.error.message
    ∧ (Firebase_ESP_Client.mSetIdToken w now (some c) tok expire).map
        (fun c => c.signer.tokens.error.message) = some c.signer.tokens.error.message
    ∧ (FIREBASE_CLASS.setFloatDigits c digits).signer.tokens.error.message =
        c.signer.tokens.error.message
    ∧ (FIREBASE_CLASS.setDoubleDigits c digits).signer.tokens.error.message =
        c.signer.tokens.error.message
    ∧ (Firebase_ESP_Client.setFloatDigits (some c) digits).map
        (fun c => c.signer.tokens.error.message) = some c.signer.tokens.error.message
    ∧ (Firebase_ESP_Client.setDoubleDigits (some c) digits).map
        (fun c => c.signer.tokens.error.message) = some c.signer.tokens.error.message
    ∧ (activeConfig (FIREBASE_CLASS.init env f m config auth)).map
        (fun c => c.signer.tokens.error.message) = some ""
    ∧ (activeConfig (Firebase_ESP_Client.init env f m config auth)).map
        (fun c => c.signer.tokens.error.message) = some "" := by
  have hset : (FIREBASE_CLASS.mSetIdToken w now (some c) tok expire).map
      (fun c => c.signer.tokens.error.message) = some c.signer.tokens.error.message := by
    by_cases h : tok = "" ∨ tok = c._int.auth_token
    · rw [FIREBASE_CLASS.mSetIdToken_reject w now c tok expire h]; rfl
    · have h1 : tok ≠ "" := fun e => h (Or.inl e)
      have h2 : tok ≠ c._int.auth_token := fun e => h (Or.inr e)
      rw [FIREBASE_CLASS.mSetIdToken_accept w now c tok expire h1 h2]; rfl
  refine ⟨hset, ?_, ?_, ?_, ?_, ?_, ?_, ?_⟩
  · rw [Firebase_ESP_Client.mSetIdToken_eq]; exact hset
  · unfold FIREBASE_CLASS.setFloatDigits; split <;> rfl
  · unfold FIREBASE_CLASS.setDoubleDigits; split <;> rfl
  · by_cases hd : digits < 7 <;> simp [Firebase_ESP_Client.setFloatDigits, hd]
  · by_cases hd : digits < 9 <;> simp [Firebase_ESP_Client.setDoubleDigits, hd]
  · obtain ⟨fc, fa⟩ := f
    cases fc <;> cases config <;>
      simp [FIREBASE_CLASS.init, activeConfig, Memory.write]
  · cases config <;>
      simp [Firebase_ESP_Client.init, activeConfig, Memory.write]

/-- C13, evaluated on the code: `FIREBASE_CLASS::init` assigns `cfg` and `auth`
only while they are null (lines 428-432). After an earlier `init` installed the
objects at addresses 1 and 2, `init` with the objects at addresses 3 and 4
leaves the facade designating 1 and 2 and leaves the object at 3 unwritten,
whereas `Firebase_ESP_Client::init` (lines 169-170) switches to 3 and 4. -/
theorem C13_init_keeps_installed_config :
    (FIREBASE_CLASS.init exampleEnv ⟨none, none⟩ exampleMemory (some 1) (some 2)).1 =
      ⟨some 1, some 2⟩
    ∧ (FIREBASE_CLASS.init exampleEnv
        (FIREBASE_CLASS.init exampleEnv ⟨none, none⟩ exampleMemory (some 1) (some 2)).1
        (FIREBASE_CLASS.init exampleEnv ⟨none, none⟩ exampleMemory (some 1) (some 2)).2
        (some 3) (some 4)).1 = ⟨some 1, some 2⟩
    ∧ (FIREBASE_CLASS.init exampleEnv
        (FIREBASE_CLASS.init exampleEnv ⟨none, none⟩ exampleMemory (some 1) (some 2)).1
        (FIREBASE_CLASS.init exampleEnv ⟨none, none⟩ exampleMemory (some 1) (some 2)).2
        (some 3) (some 4)).2 3 = exampleMemory 3
    ∧ (Firebase_ESP_Client.init exampleEnv
        (Firebase_ESP_Client.init exampleEnv ⟨none, none⟩ exampleMemory (some 1) (some 2)).1
        (Firebase_ESP_Client.init exampleEnv ⟨none, none⟩ exampleMemory (some 1) (some 2)).2
        (some 3) (some 4)).1 = ⟨some 3, some 4⟩ := by decide

/-- C14, as stated, fails for `mSetIdToken`: on a configuration whose token type
is `token_type_legacy_token`, the accepted injection of `tokenA` changes the
token type to `token_type_id_token`, in both facade variants. -/
theorem C14_counterexample_override_changes_type :
    legacyConfig.signer.tokens.token_type = fb_esp_auth_token_type.token_type_legacy_token
    ∧ (FIREBASE_CLASS.mSetIdToken 32 1700000000 (some legacyConfig) "tokenA" 3600).map
        (fun c => c.signer.tokens.token_type) =
      some fb_esp_auth_token_type.token_type_id_token
    ∧ (Firebase_ESP_Client.mSetIdToken 32 1700000000 (some legacyConfig) "tokenA" 3600).map
        (fun c => c.signer.tokens.token_type) =
      some fb_esp_auth_token_type.token_type_id_token := by decide

/-- C14, amended: `setFloatDigits`, `setDoubleDigits` and a rejected
`mSetIdToken` leave `signer.tokens.token_type` unchanged; an accepted
`mSetIdToken` (non-empty token that differs from the stored one) sets it to
`token_type_id_token`, whatever it was. -/
theorem C14_token_type_frame (w now : Nat) (c : FirebaseConfig) (tok : String)
    (expire digits : Nat) :
    (FIREBASE_CLASS.setFloatDigits c digits).signer.tokens.token_type =
        c.signer.tokens.token_type
    ∧ (FIREBASE_CLASS.setDoubleDigits c digits).signer.tokens.token_type =
        c.signer.tokens.token_type
    ∧ (Firebase_ESP_Client.setFloatDigits (some c) digits).map
        (fun c => c.signer.tokens.token_type) = some c.signer.tokens.token_type
    ∧ (Firebase_ESP_Client.setDoubleDigits (some c) digits).map
        (fun c => c.signer.tokens.token_type) = some c.signer.tokens.token_type
    ∧ (FIREBASE_CLASS.mSetIdToken w now (some c) tok expire).map
        (fun c => c.signer.tokens.token_type) =
      some (if tok ≠ "" ∧ tok ≠ c._int.auth_token
        then fb_esp_auth_token_type.token_type_id_token else c.signer.tokens.token_type)
    ∧ (Firebase_ESP_Client.mSetIdToken w now (some c) tok expire).map
        (fun c => c.signer.tokens.token_type) =
      some (if tok ≠ "" ∧ tok ≠ c._int.auth_token
        then fb_esp_auth_token_type.token_type_id_token else c.signer.tokens.token_type) := by
  have hset : (FIREBASE_CLASS.mSetIdToken w now (some c) tok expire).map
      (fun c => c.signer.tokens.token_type) =
      some (if tok ≠ "" ∧ tok ≠ c._int.auth_token
        then fb_esp_auth_token_type.token_type_id_token else c.signer.tokens.token_type) := by
    by_cases h : tok ≠ "" ∧ tok ≠ c._int.auth_token
    · rw [FIREBASE_CLASS.mSetIdToken_accept w now c tok expire h.1 h.2, if_pos h]; rfl
    · rw [if_neg h]
      have h' : tok = "" ∨ tok = c._int.auth_token := by
        by_cases h1 : tok = ""
        · exact Or.inl h1
        · by_cases h2 : tok = c._int.auth_token
          · exact Or.inr h2
          · exact absurd ⟨h1, h2⟩ h
      rw [FIREBASE_CLASS.mSetIdToken_reject w now c tok expire h']; rfl
  refine ⟨?_, ?_, ?_, ?_, hset, ?_⟩
  · unfold FIREBASE_CLASS.setFloatDigits; split <;> rfl
  · unfold FIREBASE_CLASS.setDoubleDigits; split <;> rfl
  · by_cases hd : digits < 7 <;> simp [Firebase_ESP_Client.setFloatDigits, hd]
  · by_cases hd : digits < 9 <;> simp [Firebase_ESP_Client.setDoubleDigits, hd]
  · rw [Firebase_ESP_Client.mSetIdToken_eq]; exact hset

/-- C17: `init` resets the stored expiry exactly when the credential is neither
anonymous nor from a sign-up. With a non-null `config`, the configuration the
facade works on has afterwards `signer.tokens.expires` equal to 0 if
`signer.anonymous` and `signer.signup` were both false before the call and
unchanged otherwise, `signer.lastReqMillis` equal to 0 and `signer.signup`
false, in both facade variants. Consequently, when the object at `config` has
just accepted an injected token, `init` with that `config` leaves the injected
expiry in the object. -/
theorem C17_init_expiry_reset (env : InitEnv) (f : Facade) (m : Memory) (p : Ptr)
    (auth : Option Ptr) :
    (∃ c, activeConfig (FIREBASE_CLASS.init env f m (some p) auth) = some c
      ∧ c.signer.tokens.expires =
          (if (m (f.cfg.getD p)).signer.anonymous = false
              ∧ (m (f.cfg.getD p)).signer.signup = false
            then 0 else (m (f.cfg.getD p)).signer.tokens.expires)
      ∧ c.signer.lastReqMillis = 0 ∧ c.signer.signup = false)
    ∧ (∃ c, activeConfig (Firebase_ESP_Client.init env f m (some p) auth) = some c
      ∧ c.signer.tokens.expires =
          (if (m p).signer.anonymous = false ∧ (m p).signer.signup = false
            then 0 else (m p).signer.tokens.expires)
      ∧ c.signer.lastReqMillis = 0 ∧ c.signer.signup = false)
    ∧ (∀ (w now : Nat) (tok : String) (expire : Nat) (c' : FirebaseConfig),
        tok ≠ "" → tok ≠ (m p)._int.auth_token →
        FIREBASE_CLASS.mSetIdToken w now (some (m p)) tok expire = some c' →
        ((FIREBASE_CLASS.init env f (m.write p c') (some p) auth).2 p).signer.tokens.expires =
            c'.signer.tokens.expires
        ∧ ((Firebase_ESP_Client.init env f (m.write p c') (some p) auth).2 p).signer.tokens.expires =
            c'.signer.tokens.expires) := by
  refine ⟨?_, ?_, ?_⟩
  · refine ⟨initWrites env.autoReconnect (m (f.cfg.getD p)), ?_, ?_, rfl, rfl⟩
    · simp [FIREBASE_CLASS.init_some, activeConfig, Memory.write_same]
    · cases h1 : (m (f.cfg.getD p)).signer.anonymous <;>
        cases h2 : (m (f.cfg.getD p)).signer.signup <;> simp [initWrites, h1, h2]
  · refine ⟨initWrites env.autoReconnect (m p), ?_, ?_, rfl, rfl⟩
    · simp [Firebase_ESP_Client.init_some_client, activeConfig, Memory.write_same]
    · cases h1 : (m p).signer.anonymous <;>
        cases h2 : (m p).signer.signup <;> simp [initWrites, h1, h2]
  · intro w now tok expire c' hne hdiff hset
    rw [FIREBASE_CLASS.mSetIdToken_accept w now (m p) tok expire hne hdiff] at hset
    have hc : c'.signer.anonymous = true := by
      rw [← Option.some.inj hset]
    constructor
    · rw [FIREBASE_CLASS.init_some]
      by_cases hq : p = f.cfg.getD p
      · rw [← hq]
        simp [Memory.write_same, initWrites, hc]
      · show ((m.write p c').write (f.cfg.getD p) _ p).signer.tokens.expires = _
        rw [Memory.write_other _ _ _ _ hq, Memory.write_same]
    · rw [Firebase_ESP_Client.init_some_client]
      simp [Memory.write_same, initWrites, hc]

/-- C17 at concrete inputs: the blank configuration at address 5 accepts
`tokenA` (expiry 1700003600, see `mSetIdToken_blank_tokenA`), and `init` with
that configuration leaves the expiry in place. -/
theorem C17_init_expiry_reset_witness :
    ((FIREBASE_CLASS.init exampleEnv ⟨none, none⟩ (exampleMemory.write 5 tokenAConfig)
        (some 5) (some 2)).2 5).signer.tokens.expires = tokenAConfig.signer.tokens.expires
    ∧ ((Firebase_ESP_Client.init exampleEnv ⟨none, none⟩ (exampleMemory.write 5 tokenAConfig)
        (some 5) (some 2)).2 5).signer.tokens.expires = tokenAConfig.signer.tokens.expires :=
  (C17_init_expiry_reset exampleEnv ⟨none, none⟩ exampleMemory 5 (some 2)).2.2
    32 1700000000 "tokenA" 3600 tokenAConfig (by decide) (by decide) (by decide)

/-! ## Claims on the readiness gate and the single-flight guarantee -/

/-- C15: the readiness gate `ready()`, which returns `Signer.tokenReady()`, is
true if and only if the token status is ready and `now < expires_at`; in
particular, for a ready credential with `expires_at = T` (and `T >= 1`) it is
true at `now = T - 1` and false at `now = T`, in both facade variants. -/
theorem C15_ready_iff (now : Nat) (c : FirebaseConfig) :
    (FIREBASE_CLASS.ready now c = true ↔
      c.signer.tokens.status = fb_esp_auth_token_status.token_status_ready
        ∧ now < c.signer.tokens.expires)
    ∧ (Firebase_ESP_Client.ready now c = true ↔
      c.signer.tokens.status = fb_esp_auth_token_status.token_status_ready
        ∧ now < c.signer.tokens.expires)
    ∧ (∀ T : Nat, 0 < T →
        c.signer.tokens.status = fb_esp_auth_token_status.token_status_ready →
        c.signer.tokens.expires = T →
        FIREBASE_CLASS.ready (T - 1) c = true ∧ FIREBASE_CLASS.ready T c = false
        ∧ Firebase_ESP_Client.ready (T - 1) c = true
        ∧ Firebase_ESP_Client.ready T c = false) := by
  refine ⟨?_, ?_, ?_⟩
  · simp [FIREBASE_CLASS.ready, Signer.tokenReady]
  · simp [Firebase_ESP_Client.ready, Signer.tokenReady]
  · intro T hT hs he
    simp [FIREBASE_CLASS.ready, Firebase_ESP_Client.ready, Signer.tokenReady, hs, he]
    omega

/-- C15 at concrete inputs: the credential of `tokenAConfig` expires at
1700003600; the gate is open at 1700003599 and closed at 1700003600. -/
theorem C15_ready_iff_witness :
    FIREBASE_CLASS.ready (1700003600 - 1) tokenAConfig = true
    ∧ FIREBASE_CLASS.ready 1700003600 tokenAConfig = false
    ∧ Firebase_ESP_Client.ready (1700003600 - 1) tokenAConfig = true
    ∧ Firebase_ESP_Client.ready 1700003600 tokenAConfig = false :=
  (C15_ready_iff 0 tokenAConfig).2.2 1700003600 (by decide) rfl rfl

/-- In every reachable manager state the requests sent exceed the exchanges
ended by one while an exchange is in flight and equal them otherwise. -/
theorem SignerState.Reachable.sent_eq (s : SignerState) (h : SignerState.Reachable s) :
    s.sent = s.answered + (if s.step = SignerStep.ExchangeInFlight then 1 else 0) := by
  induction h with
  | initial => rfl
  | begin mode s _ ih =>
    unfold SignerState.begin
    split
    · rename_i hs; simp [hs] at ih; simp [ih]
    · exact ih
  | handleToken now s _ ih =>
    unfold SignerState.handleToken
    split <;> rename_i hs <;> simp [hs] at ih
    · simp [hs, ih]
    · split <;> simp [ih]
    · simp [hs, ih]
    · simp [ih]
    · simp [ih]
    · split <;> simp [hs, ih]
    · simp [ih]
  | exchangeEnd outcome s _ ih =>
    unfold SignerState.exchangeEnd
    split
    · rename_i hs
      simp [hs] at ih
      split <;> simp [ih]
    · exact ih

/-- C16: single-flight. In every reachable manager state in which an exchange
is in flight, exactly one exchange is in flight, a `handleToken` tick is a
no-op, and so two ticks in immediate succession leave the state, the count of
requests sent and the single exchange in flight as they are. -/
theorem C16_single_flight (s : SignerState) (now1 now2 : Nat)
    (hr : SignerState.Reachable s) (hs : s.step = SignerStep.ExchangeInFlight) :
    SignerState.inFlight s = 1
    ∧ SignerState.handleToken now1 s = s
    ∧ SignerState.handleToken now2 (SignerState.handleToken now1 s) = s
    ∧ (SignerState.handleToken now2 (SignerState.handleToken now1 s)).sent = s.sent
    ∧ SignerState.inFlight (SignerState.handleToken now2 (SignerState.handleToken now1 s)) = 1 := by
  have h1 : SignerState.handleToken now1 s = s := by
    simp [SignerState.handleToken, hs]
  have h2 : SignerState.handleToken now2 s = s := by
    simp [SignerState.handleToken, hs]
  have hf : SignerState.inFlight s = 1 := by
    have := SignerState.Reachable.sent_eq s hr
    simp [hs] at this
    simp [SignerState.inFlight, this]
  rw [h1, h2]
  exact ⟨hf, rfl, rfl, rfl, hf⟩

/-- C16 at concrete inputs: after `begin` in a mode that needs an exchange, the
first tick sends the request; the two ticks that follow send nothing. -/
theorem C16_single_flight_witness :
    SignerState.inFlight inFlightState = 1
    ∧ SignerState.handleToken 1700000001 inFlightState = inFlightState
    ∧ SignerState.handleToken 1700000002 (SignerState.handleToken 1700000001 inFlightState) =
        inFlightState
    ∧ (SignerState.handleToken 1700000002
        (SignerState.handleToken 1700000001 inFlightState)).sent = inFlightState.sent
    ∧ SignerState.inFlight
        (SignerState.handleToken 1700000002
          (SignerState.handleToken 1700000001 inFlightState)) = 1 :=
  C16_single_flight inFlightState 1700000001 1700000002
    (SignerState.Reachable.handleToken _ _
      (SignerState.Reachable.begin _ _ SignerState.Reachable.initial))
    (by decide)

/-! ## Claims on cloud messaging requests -/

/-- On a connected, idle session with a server key, a non-empty token text and
at least one token in the array, a single-recipient request whose index is not
below the number of tokens is rejected with
`FIREBASE_ERROR_FCM_ID_TOKEN_AT_INDEX_NOT_FOUND` and nothing is sent (the
numbers fitting `size_t`). -/
theorem FIREBASE_CLASS.sendMessage_index_rejected (E : FCMErrorCodes) (w : Nat)
    (fbdo : FCMSession) (index : Nat)
    (hr : fbdo.reconnect = true) (hw : fbdo.waitIdle = true)
    (hkey : fbdo.server_key ≠ "") (htok : fbdo.idTokens ≠ "")
    (hpos : 0 < fbdo.tokens) (hle : fbdo.tokens ≤ index) (hfit : index < 2 ^ w) :
    FIREBASE_CLASS.sendMessage E w fbdo index =
      { ret := false, http_code := E.FIREBASE_ERROR_FCM_ID_TOKEN_AT_INDEX_NOT_FOUND,
        sent := false } := by
  have hk : MB_String.length fbdo.server_key ≠ 0 :=
    fun h => hkey ((MB_String.length_eq_zero_iff _).1 h)
  have ht : MB_String.length fbdo.idTokens ≠ 0 :=
    fun h => htok ((MB_String.length_eq_zero_iff _).1 h)
  have ht' : 0 < MB_String.length fbdo.idTokens := Nat.pos_of_ne_zero ht
  have h1 : (fbdo.tokens + (2 ^ w - 1)) % 2 ^ w = fbdo.tokens - 1 := by
    have hp : 0 < 2 ^ w := Nat.two_pow_pos w
    have : fbdo.tokens + (2 ^ w - 1) = (fbdo.tokens - 1) + 2 ^ w := by omega
    rw [this, Nat.add_mod_right]
    exact Nat.mod_eq_of_lt (by omega)
  have h2 : index % 2 ^ w = index := Nat.mod_eq_of_lt hfit
  have h3 : fbdo.tokens - 1 < index := by omega
  simp [FIREBASE_CLASS.sendMessage, FIREBASE_CLASS.handleFCMRequest, hr, hw, hk, ht, ht',
    h1, h2, h3]

/-- C18, evaluated on the code: with a server key and the non-empty token text
`[]`, whose array holds no token, `sendMessage(fbdo, 0)` on a connected, idle
session is not rejected: `arr->size() - 1` is `2 ^ 32 - 1` in `size_t`, the
index 0 is not greater, and `fcm_send` is called, its result and code being
returned. With one token in the array the index 1 is rejected as claimed. -/
theorem C18_sendMessage_empty_array_not_rejected :
    (emptyArraySession.server_key ≠ "" ∧ emptyArraySession.idTokens ≠ ""
      ∧ emptyArraySession.tokens ≤ 0)
    ∧ FIREBASE_CLASS.sendMessage exampleCodes 32 emptyArraySession 0 =
        { ret := true, http_code := 200, sent := true }
    ∧ FIREBASE_CLASS.sendMessage exampleCodes 32 oneTokenSession 1 =
        { ret := false,
          http_code := exampleCodes.FIREBASE_ERROR_FCM_ID_TOKEN_AT_INDEX_NOT_FOUND,
          sent := false } := by decide

/-- C19: on a connected, idle session `handleFCMRequest` validates in a fixed
order and fails with the first violated check. An empty server key yields
`FIREBASE_ERROR_NO_FCM_SERVER_KEY_PROVIDED` for every message type, whatever
the other fields hold; with a server key, a single-recipient message with an
empty token text yields `FIREBASE_ERROR_NO_FCM_ID_TOKEN_PROVIDED` and a topic
message with an empty topic yields `FIREBASE_ERROR_NO_FCM_TOPIC_PROVIDED`; in
each of these cases the result is false and `fcm_send` is not called. A
multicast message with a server key passes all checks: `fcm_send` is called
and its result returned. -/
theorem C19_handleFCMRequest_validation_order (E : FCMErrorCodes) (w : Nat)
    (fbdo : FCMSession) (hr : fbdo.reconnect = true) (hw : fbdo.waitIdle = true) :
    (fbdo.server_key = "" → ∀ messageType : fb_esp_fcm_msg_type,
      FIREBASE_CLASS.handleFCMRequest E w fbdo messageType =
        { ret := false, http_code := E.FIREBASE_ERROR_NO_FCM_SERVER_KEY_PROVIDED,
          sent := false })
    ∧ (fbdo.server_key ≠ "" → fbdo.idTokens = "" →
      FIREBASE_CLASS.handleFCMRequest E w fbdo fb_esp_fcm_msg_type.msg_single =
        { ret := false, http_code := E.FIREBASE_ERROR_NO_FCM_ID_TOKEN_PROVIDED,
          sent := false })
    ∧ (fbdo.server_key ≠ "" → fbdo.topic = "" →
      FIREBASE_CLASS.handleFCMRequest E w fbdo fb_esp_fcm_msg_type.msg_topic =
        { ret := false, http_code := E.FIREBASE_ERROR_NO_FCM_TOPIC_PROVIDED,
          sent := false })
    ∧ (fbdo.server_key ≠ "" →
      FIREBASE_CLASS.handleFCMRequest E w fbdo fb_esp_fcm_msg_type.msg_multicast =
        { ret := fbdo.fcm_send, http_code := fbdo.fcm_send_code, sent := true }) := by
  refine ⟨?_, ?_, ?_, ?_⟩
  · intro hkey messageType
    have hk : MB_String.length fbdo.server_key = 0 := (MB_String.length_eq_zero_iff _).2 hkey
    simp [FIREBASE_CLASS.handleFCMRequest, hr, hw, hk]
  · intro hkey htok
    have hk : MB_String.length fbdo.server_key ≠ 0 :=
      fun h => hkey ((MB_String.length_eq_zero_iff _).1 h)
    have ht : MB_String.length fbdo.idTokens = 0 := (MB_String.length_eq_zero_iff _).2 htok
    simp [FIREBASE_CLASS.handleFCMRequest, hr, hw, hk, ht]
  · intro hkey htop
    have hk : MB_String.length fbdo.server_key ≠ 0 :=
      fun h => hkey ((MB_String.length_eq_zero_iff _).1 h)
    have ht : MB_String.length fbdo.topic = 0 := (MB_String.length_eq_zero_iff _).2 htop
    simp [FIREBASE_CLASS.handleFCMRequest, hr, hw, hk, ht]
  · intro hkey
    have hk : MB_String.length fbdo.server_key ≠ 0 :=
      fun h => hkey ((MB_String.length_eq_zero_iff _).1 h)
    simp [FIREBASE_CLASS.handleFCMRequest, hr, hw, hk]

/-- C19 at concrete inputs: a session without a server key fails with the
server-key code for a topic message although its topic is set; a session with
a server key but no recipients fails a single-recipient message with the
token code and a topic message with the topic code, and sends a multicast
message. -/
theorem C19_handleFCMRequest_validation_order_witness :
    FIREBASE_CLASS.handleFCMRequest exampleCodes 32 noKeySession
        fb_esp_fcm_msg_type.msg_topic =
      { ret := false,
        http_code := exampleCodes.FIREBASE_ERROR_NO_FCM_SERVER_KEY_PROVIDED, sent := false }
    ∧ FIREBASE_CLASS.handleFCMRequest exampleCodes 32 noRecipientSession
        fb_esp_fcm_msg_type.msg_single =
      { ret := false,
        http_code := exampleCodes.FIREBASE_ERROR_NO_FCM_ID_TOKEN_PROVIDED, sent := false }
    ∧ FIREBASE_CLASS.handleFCMRequest exampleCodes 32 noRecipientSession
        fb_esp_fcm_msg_type.msg_topic =
      { ret := false,
        http_code := exampleCodes.FIREBASE_ERROR_NO_FCM_TOPIC_PROVIDED, sent := false }
    ∧ FIREBASE_CLASS.handleFCMRequest exampleCodes 32 noRecipientSession
        fb_esp_fcm_msg_type.msg_multicast =
      { ret := noRecipientSession.fcm_send, http_code := noRecipientSession.fcm_send_code,
        sent := true } :=
  ⟨(C19_handleFCMRequest_validation_order exampleCodes 32 noKeySession rfl rfl).1 rfl
      fb_esp_fcm_msg_type.msg_topic,
    (C19_handleFCMRequest_validation_order exampleCodes 32 noRecipientSession rfl rfl).2.1
      (by decide) rfl,
    (C19_handleFCMRequest_validation_order exampleCodes 32 noRecipientSession rfl rfl).2.2.1
      (by decide) rfl,
    (C19_handleFCMRequest_validation_order exampleCodes 32 noRecipientSession rfl rfl).2.2.2
      (by decide)⟩

/-! ## Claims on the numeric getter -/

/-- Reading a pattern as signed depends on its low bits only. -/
theorem toSigned_mod (bits n : Nat) : toSigned bits (n % 2 ^ bits) = toSigned bits n := by
  simp [toSigned, Nat.mod_mod]

/-- A natural number converted to a signed integer type of `bits` bits. -/
theorem toSigned_cast_nat (bits n : Nat) :
    toSigned bits ((n : Int) % 2 ^ bits).toNat = toSigned bits n := by
  have h : ((n : Int) % 2 ^ bits).toNat = n % 2 ^ bits := by
    have : ((n : Int) % 2 ^ bits) = ((n % 2 ^ bits : Nat) : Int) := by push_cast; rfl
    rw [this, Int.toNat_ofNat]
  rw [h, toSigned_mod]

/-- A pattern below half the range reads as itself. -/
theorem toSigned_of_lt (bits n : Nat) (hb : 0 < bits) (h : n < 2 ^ (bits - 1)) :
    toSigned bits n = n := by
  have hlt : 2 ^ (bits - 1) < 2 ^ bits := Nat.pow_lt_pow_right (by decide) (by omega)
  have hm : n % 2 ^ bits = n := Nat.mod_eq_of_lt (by omega)
  simp [toSigned, hm, h]

/-- C20: for a timestamp request (`req_data_type` is `d_timestamp` when the
value is returned) the numeric getter converts the stored 64-bit millisecond
value `v = iVal.uint64` by the requested type: `to<uint64_t>()` returns `v`
unchanged; `to<T>()` for `T` in int32, uint32, int64 returns `v / 1000` by
integer division, narrowed to `T` (exactly `v / 1000` for int64, and for int32
and uint32 whenever it fits the type); every other numeric `T` and `bool`
returns 0 (false for `bool`, the converted 0 for `float` and `double`). -/
theorem C20_to_timestamp (H : RTDBHelpers) (s0 : RTDBSession)
    (hts : (FirebaseData.to_refresh H s0).req_data_type = fb_esp_data_type.d_timestamp) :
    FirebaseData.to_T H NumType.uint64 s0 =
        NumValue.int (FirebaseData.iVal_uint64 (FirebaseData.to_refresh H s0))
    ∧ FirebaseData.to_T H NumType.int32 s0 =
        NumValue.int (toSigned 32 (FirebaseData.iVal_uint64 (FirebaseData.to_refresh H s0) / 1000))
    ∧ FirebaseData.to_T H NumType.uint32 s0 =
        NumValue.int
          ((FirebaseData.iVal_uint64 (FirebaseData.to_refresh H s0) / 1000 % 2 ^ 32 : Nat))
    ∧ FirebaseData.to_T H NumType.int64 s0 =
        NumValue.int ((FirebaseData.iVal_uint64 (FirebaseData.to_refresh H s0) / 1000 : Nat))
    ∧ (FirebaseData.iVal_uint64 (FirebaseData.to_refresh H s0) / 1000 < 2 ^ 31 →
        FirebaseData.to_T H NumType.int32 s0 =
          NumValue.int ((FirebaseData.iVal_uint64 (FirebaseData.to_refresh H s0) / 1000 : Nat)))
    ∧ (FirebaseData.iVal_uint64 (FirebaseData.to_refresh H s0) / 1000 < 2 ^ 32 →
        FirebaseData.to_T H NumType.uint32 s0 =
          NumValue.int ((FirebaseData.iVal_uint64 (FirebaseData.to_refresh H s0) / 1000 : Nat)))
    ∧ FirebaseData.to_T H NumType.bool s0 = NumValue.bool false
    ∧ FirebaseData.to_T H NumType.int8 s0 = NumValue.int 0
    ∧ FirebaseData.to_T H NumType.uint8 s0 = NumValue.int 0
    ∧ FirebaseData.to_T H NumType.int16 s0 = NumValue.int 0
    ∧ FirebaseData.to_T H NumType.uint16 s0 = NumValue.int 0
    ∧ FirebaseData.to_T H NumType.float s0 = NumValue.float (H.float_of_int 0)
    ∧ FirebaseData.to_T H NumType.double s0 = NumValue.double (H.double_of_int 0) := by
  have hv : FirebaseData.iVal_uint64 (FirebaseData.to_refresh H s0) < 2 ^ 64 :=
    Nat.mod_lt _ (by decide)
  have h32 : FirebaseData.to_T H NumType.int32 s0 =
      NumValue.int (toSigned 32 (FirebaseData.iVal_uint64 (FirebaseData.to_refresh H s0) / 1000)) := by
    simp only [FirebaseData.to_T, hts, castInt]
    simp only [toSigned_cast_nat]
    rfl
  have hu32 : FirebaseData.to_T H NumType.uint32 s0 =
      NumValue.int
        ((FirebaseData.iVal_uint64 (FirebaseData.to_refresh H s0) / 1000 % 2 ^ 32 : Nat)) := by
    simp only [FirebaseData.to_T, hts, castInt]
    push_cast
    rfl
  refine ⟨?_, h32, hu32, ?_, ?_, ?_, ?_, ?_, ?_, ?_, ?_, ?_, ?_⟩
  · have key : FirebaseData.to_T H NumType.uint64 s0 =
        castInt H NumType.uint64 (FirebaseData.iVal_uint64 (FirebaseData.to_refresh H s0)) := by
      simp [FirebaseData.to_T, hts]
    have : ((FirebaseData.iVal_uint64 (FirebaseData.to_refresh H s0) : Int) % 2 ^ 64) =
        (FirebaseData.iVal_uint64 (FirebaseData.to_refresh H s0) : Int) := by
      apply Int.emod_eq_of_lt
      · exact Int.ofNat_nonneg _
      · exact_mod_cast hv
    rw [key]
    simp only [castInt]
    rw [this]
  · have key : FirebaseData.to_T H NumType.int64 s0 =
        castInt H NumType.int64
          ((FirebaseData.iVal_uint64 (FirebaseData.to_refresh H s0) / 1000 : Nat) : Int) := by
      simp [FirebaseData.to_T, hts]
    have h63 : FirebaseData.iVal_uint64 (FirebaseData.to_refresh H s0) / 1000 < 2 ^ (64 - 1) := by
      have : (2 : Nat) ^ 64 = 18446744073709551616 := by norm_num
      have : (2 : Nat) ^ (64 - 1) = 9223372036854775808 := by norm_num
      omega
    rw [key]
    simp only [castInt]
    rw [toSigned_cast_nat, toSigned_of_lt 64 _ (by decide) h63]
  · intro hfit
    rw [h32, toSigned_of_lt 32 _ (by decide) hfit]
  · intro hfit
    rw [hu32, Nat.mod_eq_of_lt hfit]
  · simp [FirebaseData.to_T, hts, castInt]
  · simp [FirebaseData.to_T, hts, castInt, toSigned]
  · simp [FirebaseData.to_T, hts, castInt]
  · simp [FirebaseData.to_T, hts, castInt, toSigned]
  · simp [FirebaseData.to_T, hts, castInt]
  · simp [FirebaseData.to_T, hts, castInt]
  · simp [FirebaseData.to_T, hts, castInt]

/-- C20 at concrete inputs: the stored value 1640995200123 ms is returned
unchanged as uint64, as 1640995200 s for int32, uint32 and int64, and as 0 for
uint8 and `bool`. -/
theorem C20_to_timestamp_witness :
    FirebaseData.to_T exampleHelpers NumType.uint64 timestampSession =
        NumValue.int (1640995200123 : Nat)
    ∧ FirebaseData.to_T exampleHelpers NumType.int32 timestampSession =
        NumValue.int (1640995200 : Nat)
    ∧ FirebaseData.to_T exampleHelpers NumType.uint32 timestampSession =
        NumValue.int (1640995200 : Nat)
    ∧ FirebaseData.to_T exampleHelpers NumType.int64 timestampSession =
        NumValue.int (1640995200 : Nat)
    ∧ FirebaseData.to_T exampleHelpers NumType.uint8 timestampSession = NumValue.int 0
    ∧ FirebaseData.to_T exampleHelpers NumType.bool timestampSession = NumValue.bool false :=
  ⟨(C20_to_timestamp exampleHelpers timestampSession rfl).1,
    (C20_to_timestamp exampleHelpers timestampSession rfl).2.2.2.2.1 (by decide),
    (C20_to_timestamp exampleHelpers timestampSession rfl).2.2.2.2.2.1 (by decide),
    (C20_to_timestamp exampleHelpers timestampSession rfl).2.2.2.1,
    (C20_to_timestamp exampleHelpers timestampSession rfl).2.2.2.2.2.2.2.2.1,
    (C20_to_timestamp exampleHelpers timestampSession rfl).2.2.2.2.2.2.1⟩

/-! ## Claims on `begin` and on the agreement of the two facade variants -/

/-- The part of `begin` after `init`, on the object `q` the facade works on:
outside test mode the flag `fb_auth_uri` is computed from the token type that
`Signer.authChanged` leaves; in test mode the memory is handed to
`Signer.handleToken` as `init` left it. -/
theorem FIREBASE_CLASS.begin_some (E : BeginEnv) (f : Facade) (m : Memory) (p : Ptr)
    (auth : Option Ptr) :
    (FIREBASE_CLASS.begin E f m (some p) auth).1.cfg = some (f.cfg.getD p)
    ∧ ((m (f.cfg.getD p)).signer.test_mode = true →
        (FIREBASE_CLASS.begin E f m (some p) auth).2 =
          E.handleToken (FIREBASE_CLASS.init E.init f m (some p) auth).2)
    ∧ ((m (f.cfg.getD p)).signer.test_mode = false →
        ∃ m2 : Memory, (FIREBASE_CLASS.begin E f m (some p) auth).2 = E.handleToken m2
          ∧ (m2 (f.cfg.getD p))._int.fb_auth_uri =
              ((E.authChanged (some p) auth (FIREBASE_CLASS.init E.init f m (some p) auth).2
                    (f.cfg.getD p)).signer.tokens.token_type
                  == fb_esp_auth_token_type.token_type_legacy_token
                || (E.authChanged (some p) auth (FIREBASE_CLASS.init E.init f m (some p) auth).2
                    (f.cfg.getD p)).signer.tokens.token_type
                  == fb_esp_auth_token_type.token_type_id_token)) := by
  have hi := FIREBASE_CLASS.init_some E.init f m p auth
  have ht : ((FIREBASE_CLASS.init E.init f m (some p) auth).2 (f.cfg.getD p)).signer.test_mode =
      (m (f.cfg.getD p)).signer.test_mode := by
    rw [hi]; simp [Memory.write_same, initWrites]
  have hc : (FIREBASE_CLASS.init E.init f m (some p) auth).1.cfg = some (f.cfg.getD p) := by
    rw [hi]
  refine ⟨?_, ?_, ?_⟩
  · simp only [FIREBASE_CLASS.begin, hc]
  · intro h
    rw [← ht] at h
    simp only [FIREBASE_CLASS.begin, hc, h]
    rfl
  · intro h
    rw [← ht] at h
    simp only [FIREBASE_CLASS.begin, hc, h]
    refine ⟨_, rfl, ?_⟩
    simp only [Bool.not_false, if_true, Memory.write_same]
    split <;> first | rfl | (split <;> rfl)

/-- The part of `begin` after `init` in the `Firebase_ESP_Client` variant, on
the object `p` just passed. -/
theorem Firebase_ESP_Client.begin_some_client (E : BeginEnv) (f : Facade) (m : Memory) (p : Ptr)
    (auth : Option Ptr) :
    (Firebase_ESP_Client.begin E f m (some p) auth).1.cfg = some p
    ∧ ((m p).signer.test_mode = true →
        (Firebase_ESP_Client.begin E f m (some p) auth).2 =
          E.handleToken (Firebase_ESP_Client.init E.init f m (some p) auth).2)
    ∧ ((m p).signer.test_mode = false →
        ∃ m2 : Memory, (Firebase_ESP_Client.begin E f m (some p) auth).2 = E.handleToken m2
          ∧ (m2 p)._int.fb_auth_uri =
              ((E.authChanged (some p) auth (Firebase_ESP_Client.init E.init f m (some p) auth).2
                    p).signer.tokens.token_type
                  == fb_esp_auth_token_type.token_type_legacy_token
                || (E.authChanged (some p) auth (Firebase_ESP_Client.init E.init f m (some p) auth).2
                    p).signer.tokens.token_type
                  == fb_esp_auth_token_type.token_type_id_token)) := by
  have hi := Firebase_ESP_Client.init_some_client E.init f m p auth
  have ht : ((Firebase_ESP_Client.init E.init f m (some p) auth).2 p).signer.test_mode =
      (m p).signer.test_mode := by
    rw [hi]; simp [Memory.write_same, initWrites]
  have hc : (Firebase_ESP_Client.init E.init f m (some p) auth).1.cfg = some p := by
    rw [hi]
  refine ⟨?_, ?_, ?_⟩
  · simp only [Firebase_ESP_Client.begin, hc]
  · intro h
    rw [← ht] at h
    simp only [Firebase_ESP_Client.begin, hc, h]
    rfl
  · intro h
    rw [← ht] at h
    simp only [Firebase_ESP_Client.begin, hc, h]
    refine ⟨_, rfl, ?_⟩
    simp only [Bool.not_false, if_true, Memory.write_same]
    split <;> first | rfl | (split <;> rfl)

/-- C21: after `begin` with a non-null `config`, provided `Signer.handleToken`
writes neither `fb_auth_uri` nor `database_url`: outside test mode the flag
`_int.fb_auth_uri` of the configuration the facade works on is true if and
only if `signer.tokens.token_type`, as `Signer.authChanged` left it, is
`token_type_legacy_token` or `token_type_id_token`; in test mode
(`signer.test_mode` true) `fb_auth_uri` and `database_url` are as they were
before `begin`. It holds in both facade variants; the object worked on is the
one the facade designated before (or `config`) in `FIREBASE_CLASS` and
`config` in `Firebase_ESP_Client`. -/
theorem C21_begin_auth_uri (E : BeginEnv) (f : Facade) (m : Memory) (p : Ptr)
    (auth : Option Ptr)
    (hframe : ∀ (m' : Memory) (a : Ptr),
      (E.handleToken m' a)._int.fb_auth_uri = (m' a)._int.fb_auth_uri
        ∧ (E.handleToken m' a).database_url = (m' a).database_url) :
    ((m (f.cfg.getD p)).signer.test_mode = false →
      ∃ c, activeConfig (FIREBASE_CLASS.begin E f m (some p) auth) = some c
        ∧ (c._int.fb_auth_uri = true ↔
          (E.authChanged (some p) auth (FIREBASE_CLASS.init E.init f m (some p) auth).2
              (f.cfg.getD p)).signer.tokens.token_type =
            fb_esp_auth_token_type.token_type_legacy_token
          ∨ (E.authChanged (some p) auth (FIREBASE_CLASS.init E.init f m (some p) auth).2
              (f.cfg.getD p)).signer.tokens.token_type =
            fb_esp_auth_token_type.token_type_id_token))
    ∧ ((m (f.cfg.getD p)).signer.test_mode = true →
      ∃ c, activeConfig (FIREBASE_CLASS.begin E f m (some p) auth) = some c
        ∧ c._int.fb_auth_uri = (m (f.cfg.getD p))._int.fb_auth_uri
        ∧ c.database_url = (m (f.cfg.getD p)).database_url)
    ∧ ((m p).signer.test_mode = false →
      ∃ c, activeConfig (Firebase_ESP_Client.begin E f m (some p) auth) = some c
        ∧ (c._int.fb_auth_uri = true ↔
          (E.authChanged (some p) auth (Firebase_ESP_Client.init E.init f m (some p) auth).2
              p).signer.tokens.token_type =
            fb_esp_auth_token_type.token_type_legacy_token
          ∨ (E.authChanged (some p) auth (Firebase_ESP_Client.init E.init f m (some p) auth).2
              p).signer.tokens.token_type =
            fb_esp_auth_token_type.token_type_id_token))
    ∧ ((m p).signer.test_mode = true →
      ∃ c, activeConfig (Firebase_ESP_Client.begin E f m (some p) auth) = some c
        ∧ c._int.fb_auth_uri = (m p)._int.fb_auth_uri
        ∧ c.database_url = (m p).database_url) := by
  obtain ⟨hc1, ht1, hn1⟩ := FIREBASE_CLASS.begin_some E f m p auth
  obtain ⟨hc2, ht2, hn2⟩ := Firebase_ESP_Client.begin_some_client E f m p auth
  refine ⟨?_, ?_, ?_, ?_⟩
  · intro h
    obtain ⟨m2, hm, hu⟩ := hn1 h
    refine ⟨E.handleToken m2 (f.cfg.getD p), ?_, ?_⟩
    · simp [activeConfig, hc1, hm]
    · rw [(hframe m2 _).1, hu]
      simp [Bool.or_eq_true]
  · intro h
    refine ⟨E.handleToken (FIREBASE_CLASS.init E.init f m (some p) auth).2 (f.cfg.getD p),
      ?_, ?_, ?_⟩
    · simp [activeConfig, hc1, ht1 h]
    · rw [(hframe _ _).1, FIREBASE_CLASS.init_some]
      simp [Memory.write_same, initWrites]
    · rw [(hframe _ _).2, FIREBASE_CLASS.init_some]
      simp [Memory.write_same, initWrites]
  · intro h
    obtain ⟨m2, hm, hu⟩ := hn2 h
    refine ⟨E.handleToken m2 p, ?_, ?_⟩
    · simp [activeConfig, hc2, hm]
    · rw [(hframe m2 _).1, hu]
      simp [Bool.or_eq_true]
  · intro h
    refine ⟨E.handleToken (Firebase_ESP_Client.init E.init f m (some p) auth).2 p, ?_, ?_, ?_⟩
    · simp [activeConfig, hc2, ht2 h]
    · rw [(hframe _ _).1, Firebase_ESP_Client.init_some_client]
      simp [Memory.write_same, initWrites]
    · rw [(hframe _ _).2, Firebase_ESP_Client.init_some_client]
      simp [Memory.write_same, initWrites]

/-- C21 at concrete inputs: outside test mode (the legacy-secret configuration
at address 3, whose token type `Signer.authChanged` leaves at
`token_type_id_token`) and in test mode (`testModeConfig` at address 7), in
both facade variants. -/
theorem C21_begin_auth_uri_witness :
    (∃ c, activeConfig (FIREBASE_CLASS.begin exampleBeginEnv ⟨none, none⟩
          (exampleMemory.write 7 testModeConfig) (some 3) (some 4)) = some c
        ∧ (c._int.fb_auth_uri = true ↔
          (exampleBeginEnv.authChanged (some 3) (some 4)
              (FIREBASE_CLASS.init exampleBeginEnv.init ⟨none, none⟩
                (exampleMemory.write 7 testModeConfig) (some 3) (some 4)).2
              3).signer.tokens.token_type =
            fb_esp_auth_token_type.token_type_legacy_token
          ∨ (exampleBeginEnv.authChanged (some 3) (some 4)
              (FIREBASE_CLASS.init exampleBeginEnv.init ⟨none, none⟩
                (exampleMemory.write 7 testModeConfig) (some 3) (some 4)).2
              3).signer.tokens.token_type =
            fb_esp_auth_token_type.token_type_id_token))
    ∧ (∃ c, activeConfig (FIREBASE_CLASS.begin exampleBeginEnv ⟨none, none⟩
          (exampleMemory.write 7 testModeConfig) (some 7) (some 4)) = some c
        ∧ c._int.fb_auth_uri = testModeConfig._int.fb_auth_uri
        ∧ c.database_url = testModeConfig.database_url)
    ∧ (∃ c, activeConfig (Firebase_ESP_Client.begin exampleBeginEnv ⟨none, none⟩
          (exampleMemory.write 7 testModeConfig) (some 3) (some 4)) = some c
        ∧ (c._int.fb_auth_uri = true ↔
          (exampleBeginEnv.authChanged (some 3) (some 4)
              (Firebase_ESP_Client.init exampleBeginEnv.init ⟨none, none⟩
                (exampleMemory.write 7 testModeConfig) (some 3) (some 4)).2
              3).signer.tokens.token_type =
            fb_esp_auth_token_type.token_type_legacy_token
          ∨ (exampleBeginEnv.authChanged (some 3) (some 4)
              (Firebase_ESP_Client.init exampleBeginEnv.init ⟨none, none⟩
                (exampleMemory.write 7 testModeConfig) (some 3) (some 4)).2
              3).signer.tokens.token_type =
            fb_esp_auth_token_type.token_type_id_token))
    ∧ (∃ c, activeConfig (Firebase_ESP_Client.begin exampleBeginEnv ⟨none, none⟩
          (exampleMemory.write 7 testModeConfig) (some 7) (some 4)) = some c
        ∧ c._int.fb_auth_uri = testModeConfig._int.fb_auth_uri
        ∧ c.database_url = testModeConfig.database_url) :=
  ⟨(C21_begin_auth_uri exampleBeginEnv ⟨none, none⟩ (exampleMemory.write 7 testModeConfig) 3
      (some 4) (fun _ _ => ⟨rfl, rfl⟩)).1 (by decide),
    (C21_begin_auth_uri exampleBeginEnv ⟨none, none⟩ (exampleMemory.write 7 testModeConfig) 7
      (some 4) (fun _ _ => ⟨rfl, rfl⟩)).2.1 (by decide),
    (C21_begin_auth_uri exampleBeginEnv ⟨none, none⟩ (exampleMemory.write 7 testModeConfig) 3
      (some 4) (fun _ _ => ⟨rfl, rfl⟩)).2.2.1 (by decide),
    (C21_begin_auth_uri exampleBeginEnv ⟨none, none⟩ (exampleMemory.write 7 testModeConfig) 7
      (some 4) (fun _ _ => ⟨rfl, rfl⟩)).2.2.2 (by decide)⟩

/-- C22: the two facade variants implement the same external token override.
For every configuration pointer (null or not) and configuration state, every
token, lifetime, clock reading and width of the `expires` field,
`Firebase_ESP_Client::mSetIdToken` and `FIREBASE_CLASS::mSetIdToken` produce
the same resulting configuration. -/
theorem C22_mSetIdToken_variants_agree (w now : Nat) (config : Option FirebaseConfig)
    (tok : String) (expire : Nat) :
    Firebase_ESP_Client.mSetIdToken w now config tok expire =
      FIREBASE_CLASS.mSetIdToken w now config tok expire := by
  cases config with
  | none => rfl
  | some c =>
    by_cases hpos : MB_String.length tok > 0
    · by_cases heq : c._int.auth_token = tok
      · simp [Firebase_ESP_Client.mSetIdToken, FIREBASE_CLASS.mSetIdToken, hpos, heq]
      · simp [Firebase_ESP_Client.mSetIdToken, FIREBASE_CLASS.mSetIdToken, hpos, heq]
    · simp [Firebase_ESP_Client.mSetIdToken, FIREBASE_CLASS.mSetIdToken, hpos]
